import Mathlib

/-!
Verification development for the prompt-router repository.

This file gives a shallow embedding, in Lean 4, of the two subsystems that
carry the repository's nontrivial invariants:

* `src/cache/prompt_cache.py` — the `PromptCache` class: SHA-256 content
  keys, a metadata table plus one blob per key, TTL expiration, and
  size-bounded LRU eviction.  The SQLite metadata table is modelled as an
  association list from keys to rows, and the on-disk pickle blobs as an
  association list from keys to payloads.  Wall-clock time is modelled as a
  natural number of seconds passed explicitly to each operation.
* `src/chains/batch_processor.py` — `BatchProcessor._process_single_item`,
  `BatchProcessor.process_batch` and `ProgressTracker.get_progress`.
  The collaborator objects (optimizer, router, analyzer) are modelled as
  explicit fallible functions, with exception-raising rendered as
  `Except String`.

Python dictionaries that flow through the cache are modelled by the
inductive type `PyVal` below; a payload (`Dict[str, Any]` in the source) is
an association list of string keys to `PyVal` values, and Python truthiness
of such a payload is emptiness of that list.
-/

/-- A dynamic Python value as it appears in the cached payloads: `None`,
a string, or a string-keyed dictionary. -/
inductive PyVal where
  | pyNone : PyVal
  | str : String → PyVal
  | dict : List (String × PyVal) → PyVal

/-- A Python `Dict[str, Any]` payload: an association list of string keys
to dynamic values. -/
abbrev PyDict := List (String × PyVal)

/-- `d.get(k, dflt)` on a Python dict: the stored value when the key is
present, the default otherwise. -/
def pyDictGetD (d : PyDict) (k : String) (dflt : PyVal) : PyVal :=
  (d.lookup k).getD dflt

namespace SHA256

/-!
Executable SHA-256 (FIPS 180-4) over lists of bytes, used by
`PromptCache._generate_key` via Python's `hashlib.sha256(...).hexdigest()`.
Words are naturals reduced modulo `2^32` at each operation.
-/

/-- The 64 SHA-256 round constants (decimal). -/
def K : List Nat :=
  [1116352408, 1899447441, 3049323471, 3921009573, 961987163,
   1508970993, 2453635748, 2870763221, 3624381080, 310598401,
   607225278, 1426881987, 1925078388, 2162078206, 2614888103,
   3248222580, 3835390401, 4022224774, 264347078, 604807628,
   770255983, 1249150122, 1555081692, 1996064986, 2554220882,
   2821834349, 2952996808, 3210313671, 3336571891, 3584528711,
   113926993, 338241895, 666307205, 773529912, 1294757372,
   1396182291, 1695183700, 1986661051, 2177026350, 2456956037,
   2730485921, 2820302411, 3259730800, 3345764771, 3516065817,
   3600352804, 4094571909, 275423344, 430227734, 506948616,
   659060556, 883997877, 958139571, 1322822218, 1537002063,
   1747873779, 1955562222, 2024104815, 2227730452, 2361852424,
   2428436474, 2756734187, 3204031479, 3329325298]

/-- The initial SHA-256 hash state (decimal). -/
def H0 : List Nat :=
  [1779033703, 3144134277, 1013904242, 2773480762,
   1359893119, 2600822924, 528734635, 1541459225]

/-- `2^32`, the word modulus. -/
def M32 : Nat := 4294967296

/-- Addition modulo `2^32`. -/
def add32 (a b : Nat) : Nat := (a + b) % M32

/-- Right rotation of a 32-bit word by `n` bits. -/
def rotr (n x : Nat) : Nat := ((x >>> n) ||| (x <<< (32 - n))) % M32

/-- Bitwise complement of a 32-bit word. -/
def not32 (x : Nat) : Nat := 4294967295 ^^^ x

/-- The SHA-256 `Ch` function. -/
def ch (x y z : Nat) : Nat := (x &&& y) ^^^ (not32 x &&& z)

/-- The SHA-256 `Maj` function. -/
def maj (x y z : Nat) : Nat := (x &&& y) ^^^ (x &&& z) ^^^ (y &&& z)

/-- The SHA-256 `Σ₀` function. -/
def bigS0 (x : Nat) : Nat := rotr 2 x ^^^ rotr 13 x ^^^ rotr 22 x

/-- The SHA-256 `Σ₁` function. -/
def bigS1 (x : Nat) : Nat := rotr 6 x ^^^ rotr 11 x ^^^ rotr 25 x

/-- The SHA-256 `σ₀` function. -/
def smallS0 (x : Nat) : Nat := rotr 7 x ^^^ rotr 18 x ^^^ (x >>> 3)

/-- The SHA-256 `σ₁` function. -/
def smallS1 (x : Nat) : Nat := rotr 17 x ^^^ rotr 19 x ^^^ (x >>> 10)

/-- One message-schedule extension step: appends the next word `W[t]`
computed from `W[t-2]`, `W[t-7]`, `W[t-15]`, `W[t-16]`. -/
def extendStep (w : List Nat) : List Nat :=
  let n := w.length
  w ++ [add32 (add32 (smallS1 (w.getD (n - 2) 0)) (w.getD (n - 7) 0))
              (add32 (smallS0 (w.getD (n - 15) 0)) (w.getD (n - 16) 0))]

/-- Extends a 16-word block to the full 64-word message schedule. -/
def extendW (w : List Nat) : List Nat := extendStep^[48] w

/-- One compression round on the 8-word working state. -/
def round (st : List Nat) (kw : Nat × Nat) : List Nat :=
  match st with
  | [a, b, c, d, e, f, g, h] =>
    let t1 := add32 h (add32 (bigS1 e) (add32 (ch e f g) (add32 kw.1 kw.2)))
    let t2 := add32 (bigS0 a) (maj a b c)
    [add32 t1 t2, a, b, c, add32 d t1, e, f, g]
  | other => other

/-- Compresses one 16-word block into the running hash state. -/
def compress (h : List Nat) (block : List Nat) : List Nat :=
  let w := extendW block
  let st := (K.zip w).foldl round h
  (h.zip st).map (fun p => add32 p.1 p.2)

/-- Big-endian bytes (most significant first) of an 8-byte length field. -/
def lenBytes (bitLen : Nat) : List Nat :=
  (List.range 8).map (fun i => (bitLen >>> (8 * (7 - i))) % 256)

/-- SHA-256 message padding: append `0x80`, zero bytes to 56 mod 64, then
the 8-byte big-endian bit length. -/
def pad (msg : List Nat) : List Nat :=
  let l := msg.length
  let zeros := (119 - l % 64) % 64
  msg ++ [0x80] ++ List.replicate zeros 0 ++ lenBytes (8 * l)

/-- Splits a byte list into chunks of 64 (the first argument is fuel,
instantiated with the list length). -/
def chunk64 : Nat → List Nat → List (List Nat)
  | 0, _ => []
  | _, [] => []
  | fuel + 1, l => l.take 64 :: chunk64 fuel (l.drop 64)

/-- Packs bytes (big-endian, four at a time) into 32-bit words. -/
def bytesToWords : List Nat → List Nat
  | b0 :: b1 :: b2 :: b3 :: rest =>
    ((b0 <<< 24) ||| (b1 <<< 16) ||| (b2 <<< 8) ||| b3) :: bytesToWords rest
  | _ => []

/-- The eight-word SHA-256 digest of a byte list. -/
def digestWords (msg : List Nat) : List Nat :=
  let padded := pad msg
  ((chunk64 padded.length padded).map bytesToWords).foldl compress H0

/-- The sixteen lowercase hexadecimal digit characters. -/
def hexDigit (n : Nat) : Char :=
  if n < 10 then Char.ofNat (48 + n) else Char.ofNat (87 + n)

/-- Fixed-width (8 hex digits) rendering of a 32-bit word. -/
def toHex8 (w : Nat) : List Char :=
  (List.range 8).map (fun i => hexDigit ((w >>> (28 - 4 * i)) % 16))

/-- The 64-character lowercase hexadecimal SHA-256 digest of a byte list,
as `hashlib.sha256(...).hexdigest()` renders it. -/
def hexDigest (msg : List Nat) : String :=
  ⟨((digestWords msg).map toHex8).flatten⟩

/-- UTF-8 encoding of one character, as `str.encode('utf-8')` produces. -/
def utf8Bytes (c : Char) : List Nat :=
  let n := c.toNat
  if n < 0x80 then [n]
  else if n < 0x800 then
    [0xC0 ||| (n >>> 6), 0x80 ||| (n &&& 0x3F)]
  else if n < 0x10000 then
    [0xE0 ||| (n >>> 12), 0x80 ||| ((n >>> 6) &&& 0x3F), 0x80 ||| (n &&& 0x3F)]
  else
    [0xF0 ||| (n >>> 18), 0x80 ||| ((n >>> 12) &&& 0x3F),
     0x80 ||| ((n >>> 6) &&& 0x3F), 0x80 ||| (n &&& 0x3F)]

/-- UTF-8 bytes of a string. -/
def strBytes (s : String) : List Nat := (s.data.map utf8Bytes).flatten

/-- `hashlib.sha256(s.encode('utf-8')).hexdigest()`. -/
def sha256Hex (s : String) : String := hexDigest (strBytes s)

end SHA256

/-- The string hashed by `PromptCache._generate_key`:
`f"{prompt}|{target_llm}|{optimization_type}"`. -/
def cacheInput (prompt targetLlm optimizationType : String) : String :=
  prompt ++ "|" ++ targetLlm ++ "|" ++ optimizationType

/-- `PromptCache._generate_key`: the SHA-256 hex digest of the
pipe-joined parameters. -/
def generateKey (prompt targetLlm optimizationType : String) : String :=
  SHA256.sha256Hex (cacheInput prompt targetLlm optimizationType)

/-- Sanity anchor: the embedded SHA-256 agrees with the standard test
vector for the string "abc". -/
theorem sha256Hex_abc :
    SHA256.sha256Hex "abc"
      = "ba7816bf8f01cfea414140de5dae2223b00361a396177a9cb410ff61f20015ad" := by
  rfl

/-!
## The cache store (`PromptCache` in `src/cache/prompt_cache.py`)

The SQLite table `cache_entries` is modelled as `rows`, an association list
from key to `CacheRow`; the `.cache` pickle files on disk are modelled as
`blobs`, an association list from key to payload.  Timestamps (ISO-format
`TEXT` columns in the source) are naturals; `last_accessed` is `Option Nat`
with `none` for SQL `NULL`, which sorts before every value in ascending
order, matching SQLite.  The payload size that the source reads back from
the pickle file (`file_path.stat().st_size`) is supplied by an explicit
serialization-size function `pickleSize` passed to `cacheSet`.
-/

/-- One row of the `cache_entries` metadata table. -/
structure CacheRow where
  created_at : Nat
  expires_at : Option Nat
  access_count : Nat
  last_accessed : Option Nat
  size_bytes : Nat
  tags : List String
deriving DecidableEq, Repr

/-- The observable state of one `PromptCache` instance: the metadata
table, the blob files, the byte budget `max_size_bytes` and the default
TTL (`default_ttl`, in seconds). -/
structure CacheState where
  rows : List (String × CacheRow)
  blobs : List (String × PyDict)
  maxSize : Nat
  defaultTtl : Nat

/-- Removes every association for `k` from an association list. -/
def eraseKey {β : Type} (l : List (String × β)) (k : String) : List (String × β) :=
  l.filter (fun e => e.1 != k)

/-- Inserts (or replaces, as SQLite `INSERT OR REPLACE` / file overwrite
do) the association `k ↦ v`. -/
def insertKey {β : Type} (l : List (String × β)) (k : String) (v : β) : List (String × β) :=
  (k, v) :: eraseKey l k

/-- `PromptCache._get_total_size`: `SUM(size_bytes)` over the metadata
rows. -/
def totalSize (s : CacheState) : Nat :=
  (s.rows.map (fun e => e.2.size_bytes)).sum

/-- `PromptCache._remove_entry`: deletes the metadata row and unlinks the
blob file for `key`. -/
def removeEntry (s : CacheState) (key : String) : CacheState :=
  { s with rows := eraseKey s.rows key, blobs := eraseKey s.blobs key }

/-- The expiry test in `PromptCache.get`: a row with a non-null
`expires_at` is expired iff `now > expires_at`. -/
def expiredB (expiresAt : Option Nat) (now : Nat) : Bool :=
  match expiresAt with
  | some t => now > t
  | none => false

/-- The access-statistics update in `PromptCache.get`:
`access_count = access_count + 1, last_accessed = now` for `key`. -/
def bumpStats (s : CacheState) (key : String) (now : Nat) : CacheState :=
  { s with rows := s.rows.map (fun e =>
      if e.1 = key then
        (e.1, { e.2 with access_count := e.2.access_count + 1, last_accessed := some now })
      else e) }

/-- `PromptCache.get`: metadata lookup, lazy-expiry check (removing the
expired entry synchronously), access-statistics update, then blob load;
a metadata row whose blob file is missing is self-healed by removal and
reported as a miss.  Returns the payload (or `none`) and the post-state. -/
def cacheGet (s : CacheState) (now : Nat)
    (prompt targetLlm optimizationType : String) : Option PyDict × CacheState :=
  let key := generateKey prompt targetLlm optimizationType
  match s.rows.lookup key with
  | none => (none, s)
  | some row =>
    if expiredB row.expires_at now then
      (none, removeEntry s key)
    else
      let s1 := bumpStats s key now
      match s1.blobs.lookup key with
      | none => (none, removeEntry s1 key)
      | some d => (some d, s1)

/-- The `last_accessed ASC` part of the LRU ordering; SQL `NULL`
(`none`) sorts before every value. -/
def optLastLe : Option Nat → Option Nat → Prop
  | none, _ => True
  | some _, none => False
  | some x, some y => x ≤ y

instance : ∀ a b, Decidable (optLastLe a b)
  | none, _ => isTrue trivial
  | some _, none => isFalse (fun h => h)
  | some x, some y => inferInstanceAs (Decidable (x ≤ y))

/-- The `ORDER BY access_count ASC, last_accessed ASC` comparison used by
`PromptCache._cleanup_by_size`. -/
def lruRel (a b : String × CacheRow) : Prop :=
  a.2.access_count < b.2.access_count ∨
    (a.2.access_count = b.2.access_count ∧ optLastLe a.2.last_accessed b.2.last_accessed)

instance : DecidableRel lruRel := fun a b =>
  decidable_of_iff
    (a.2.access_count < b.2.access_count ∨
      (a.2.access_count = b.2.access_count ∧ optLastLe a.2.last_accessed b.2.last_accessed))
    Iff.rfl

/-- The LRU candidate ordering of the metadata rows (the `lru_rows`
query result in `PromptCache._cleanup_by_size`). -/
def lruSort (rows : List (String × CacheRow)) : List (String × CacheRow) :=
  List.insertionSort lruRel rows

/-- The victim-selection loop of `PromptCache._cleanup_by_size`: walk the
LRU-ordered rows, stopping as soon as `freed ≥ needed`, collecting each
removed row. -/
def cleanupVictims : List (String × CacheRow) → Nat → Nat → List (String × CacheRow)
  | [], _, _ => []
  | r :: rest, needed, freed =>
    if freed ≥ needed then []
    else r :: cleanupVictims rest needed (freed + r.2.size_bytes)

/-- `PromptCache._cleanup_by_size`: removes the selected victims (metadata
row and blob file each) one at a time. -/
def cleanupBySize (s : CacheState) (needed : Nat) : CacheState :=
  (cleanupVictims (lruSort s.rows) needed 0).foldl (fun st v => removeEntry st v.1) s

/-- An injected failure point inside `PromptCache.set`: the pickle dump
raising midway (`blobWrite`), or the metadata `INSERT OR REPLACE`
raising (`metaInsert`). -/
inductive FailPoint where
  | blobWrite : FailPoint
  | metaInsert : FailPoint
deriving DecidableEq

/-- The expiry timestamp computed by `PromptCache.set`:
`now + timedelta(hours=ttl_hours)` when a custom TTL is given, else
`now + self.default_ttl`. -/
def setExpiry (s : CacheState) (now : Nat) (ttlHours : Option Nat) : Nat :=
  now + (match ttlHours with
    | some h => h * 3600
    | none => s.defaultTtl)

/-- The metadata row written by `PromptCache.set`'s `INSERT OR REPLACE`:
the listed columns are set and the omitted ones take their defaults
(`access_count = 0`, `last_accessed = NULL`). -/
def newRowFor (now expiresAt size : Nat) (tags : List String) : CacheRow :=
  ⟨now, some expiresAt, 0, none, size, tags⟩

/-- The state right after `pickle.dump` in `PromptCache.set`: the blob
file for `key` now holds `data` (a pre-existing file was truncated and
overwritten). -/
def afterBlobWrite (s : CacheState) (key : String) (data : PyDict) : CacheState :=
  { s with blobs := insertKey s.blobs key data }

/-- The state after the size check of `PromptCache.set`: when
`totalSize + size_bytes` exceeds `max_size_bytes` the LRU eviction pass
`_cleanup_by_size(size_bytes)` has run, otherwise nothing happened. -/
def afterEviction (pickleSize : PyDict → Nat) (s : CacheState) (key : String)
    (data : PyDict) : CacheState :=
  let s1 := afterBlobWrite s key data
  if totalSize s1 + pickleSize data > s1.maxSize then cleanupBySize s1 (pickleSize data)
  else s1

/-- `PromptCache.set`: computes the key and expiry, writes the pickle blob
(truncating any previous blob at that path), measures its size, runs the
size-budget eviction pass when `totalSize + size` exceeds the budget, then
inserts the metadata row (`INSERT OR REPLACE`, which resets `access_count`
to 0 and `last_accessed` to `NULL`).  Any exception is caught: the handler
unlinks the blob file if it exists and returns `False`.  `failAt` injects
a failure at the chosen point (`none` = no failure); a failure during the
metadata insert rolls that statement back, but the eviction pass ran on
its own committed connections. -/
def cacheSet (pickleSize : PyDict → Nat) (s : CacheState) (now : Nat)
    (prompt targetLlm : String) (data : PyDict) (optimizationType : String)
    (ttlHours : Option Nat) (tags : List String) (failAt : Option FailPoint) :
    Bool × CacheState :=
  let key := generateKey prompt targetLlm optimizationType
  if failAt = some .blobWrite then
    -- pickle.dump raised after the file was opened/truncated: the handler
    -- sees the partial file and unlinks it; the metadata rows are untouched.
    (false, { s with blobs := eraseKey s.blobs key })
  else if failAt = some .metaInsert then
    (false, { afterEviction pickleSize s key data with
      blobs := eraseKey (afterEviction pickleSize s key data).blobs key })
  else
    (true, { afterEviction pickleSize s key data with
      rows := insertKey (afterEviction pickleSize s key data).rows key
        (newRowFor now (setExpiry s now ttlHours) (pickleSize data) tags) })

/-!
## The batch pipeline (`BatchProcessor` in `src/chains/batch_processor.py`)

The collaborators (`PromptOptimizer.optimize`, `LLMRouter.route_prompt`,
`PromptAnalyzer.analyze`) are modelled as explicit fallible functions: a
raised exception is `Except.error msg` with `msg` the exception text
(`str(e)` in the handler).  `_process_single_item` threads the cache state
and additionally reports how many times each collaborator was invoked.
Wall-clock durations (`time.time() - start_time`) are modelled by an
explicit `elapsed` parameter recorded in the result.
-/

/-- `BatchItem`: one item of a batch (the opaque metadata map is not
modelled — the pipeline never reads it). -/
structure BatchItem where
  id : String
  prompt : String
  target_llm : String := "universal"
  optimization_type : String := "default"
deriving DecidableEq, Repr

/-- The value returned by `LLMRouter.route_prompt`: a dict read at keys
`'formatted_prompt'` and `'metadata'`. -/
structure RouteOut where
  formatted_prompt : String
  metadata : PyVal

/-- The three collaborators invoked by `_process_single_item`, each
fallible. `analyze` yields the dict produced by `analysis.to_dict()`. -/
structure Collaborators where
  optimize : String → String → Except String String
  route : String → String → Except String RouteOut
  analyze : String → String → Except String PyDict

/-- `BatchResult`: the per-item outcome record.  The fields that Python
fills with either a string or a cached dynamic value (`optimized_prompt`,
`formatted_prompt`) and the optional dict fields (`analysis`,
`routing_metadata`) are `PyVal`. -/
structure BatchResult where
  item_id : String
  original_prompt : String
  optimized_prompt : PyVal
  formatted_prompt : PyVal
  target_llm : String
  processing_time_seconds : Nat
  success : Bool
  error_message : Option String := none
  analysis : PyVal := PyVal.pyNone
  routing_metadata : PyVal := PyVal.pyNone

/-- The failed `BatchResult` built by the exception handler of
`_process_single_item`: empty prompts, `success=False`, the exception
text as `error_message`. -/
def failedResult (item : BatchItem) (elapsed : Nat) (e : String) : BatchResult :=
  { item_id := item.id, original_prompt := item.prompt,
    optimized_prompt := PyVal.str "", formatted_prompt := PyVal.str "",
    target_llm := item.target_llm, processing_time_seconds := elapsed,
    success := false, error_message := some e }

/-- `Optional[Dict]` rendered as a `PyVal` (the value stored at the
`'analysis'` key of the cached payload). -/
def optDictVal : Option PyDict → PyVal
  | none => PyVal.pyNone
  | some d => PyVal.dict d

/-- The outcome of `_process_single_item`: the `BatchResult`, the cache
state after the call, and how many times each collaborator ran. -/
structure PipeOut where
  result : BatchResult
  cache : CacheState
  optCalls : Nat
  routeCalls : Nat
  anaCalls : Nat

/-- The cache-miss compute path of `_process_single_item`: optimize,
route, optionally analyze, assemble `result_data`, store it in the cache
(when enabled), and build the success result; any collaborator error is
caught and becomes a failed result. -/
def computeItem (collab : Collaborators) (pickleSize : PyDict → Nat)
    (s : CacheState) (now : Nat) (elapsed : Nat) (item : BatchItem)
    (enableAnalysis enableCache : Bool) : PipeOut :=
  match collab.optimize item.prompt item.target_llm with
  | .error e => ⟨failedResult item elapsed e, s, 1, 0, 0⟩
  | .ok optimizedPrompt =>
    match collab.route optimizedPrompt item.target_llm with
    | .error e => ⟨failedResult item elapsed e, s, 1, 1, 0⟩
    | .ok routingResult =>
      let anaOutcome : Except String (Option PyDict) :=
        if enableAnalysis then (collab.analyze item.prompt item.target_llm).map some
        else .ok none
      let anaCalls := if enableAnalysis then 1 else 0
      match anaOutcome with
      | .error e => ⟨failedResult item elapsed e, s, 1, 1, anaCalls⟩
      | .ok analysisResult =>
        let resultData : PyDict :=
          [("optimized_prompt", PyVal.str optimizedPrompt),
           ("formatted_prompt", PyVal.str routingResult.formatted_prompt),
           ("analysis", optDictVal analysisResult),
           ("routing_metadata", routingResult.metadata)]
        let s2 := if enableCache then
            (cacheSet pickleSize s now item.prompt item.target_llm resultData
              item.optimization_type none ["batch", item.target_llm] none).2
          else s
        ⟨{ item_id := item.id, original_prompt := item.prompt,
           optimized_prompt := PyVal.str optimizedPrompt,
           formatted_prompt := PyVal.str routingResult.formatted_prompt,
           target_llm := item.target_llm, processing_time_seconds := elapsed,
           success := true, error_message := none,
           analysis := optDictVal analysisResult,
           routing_metadata := routingResult.metadata },
         s2, 1, 1, anaCalls⟩

/-- `BatchProcessor._process_single_item`: consult the cache first (when
enabled); `if cached_result:` is Python truthiness, so a hit is taken only
when the payload is a *non-empty* dict; otherwise fall through to the
compute path. -/
def processSingleItem (collab : Collaborators) (pickleSize : PyDict → Nat)
    (s : CacheState) (now : Nat) (elapsed : Nat) (item : BatchItem)
    (enableAnalysis enableCache : Bool) : PipeOut :=
  let got := if enableCache then
      cacheGet s now item.prompt item.target_llm item.optimization_type
    else (none, s)
  match got with
  | (some d, s1) =>
    if d.isEmpty then
      computeItem collab pickleSize s1 now elapsed item enableAnalysis enableCache
    else
      ⟨{ item_id := item.id, original_prompt := item.prompt,
         optimized_prompt := pyDictGetD d "optimized_prompt" (PyVal.str item.prompt),
         formatted_prompt := pyDictGetD d "formatted_prompt" (PyVal.str item.prompt),
         target_llm := item.target_llm, processing_time_seconds := elapsed,
         success := true, error_message := none,
         analysis := pyDictGetD d "analysis" PyVal.pyNone,
         routing_metadata := pyDictGetD d "routing_metadata" PyVal.pyNone },
       s1, 0, 0, 0⟩
  | (none, s1) =>
    computeItem collab pickleSize s1 now elapsed item enableAnalysis enableCache

/-- `BatchReport`: the aggregate report assembled by `process_batch`
(timestamps and derived timing fields are omitted; the claims under
verification concern the counters, results and errors). -/
structure BatchReport where
  batch_id : String
  total_items : Nat
  processed_items : Nat
  successful_items : Nat
  failed_items : Nat
  results : List BatchResult
  errors : List String

/-- The caller-supplied `progress_callback` of `process_batch`, modelled
as a fallible function of the tracker's completed-item count (the
evolving component of the progress record; the tracker's `total_items`
and `start_time` are fixed when the batch starts).  `none` is
`progress_callback=None`; `Except.error e` is the callback raising an
exception with text `e`. -/
def ProgressCallback : Type := Option (Nat → Except String Unit)

/-- Runs the progress-callback step of the collection loop: skipped when
no callback was supplied (`if progress_callback:`), otherwise the
callback is invoked with the updated progress. -/
def cbRun (pc : ProgressCallback) (completed : Nat) : Except String Unit :=
  match pc with
  | none => Except.ok ()
  | some f => f completed

/-- One iteration of the `as_completed` collection loop of
`process_batch`.  Inside the `try`: append the result, bump the
success/failure counters, record the error text when present and
non-empty (`if result.error_message:` is truthiness), bump
`processed_items`, update the tracker, then invoke the progress callback.
The appends and counter bumps cannot raise, and `future.result()` cannot
raise because `_process_single_item` catches every exception, so the only
raising statement is the caller's callback; when it raises, the `except`
handler appends `"Erro crítico no item {id}: {e}"` and increments
`failed_items` a second time for the already-counted item. -/
def collectResult (rep : BatchReport) (item : BatchItem) (result : BatchResult)
    (callbackOutcome : Except String Unit) : BatchReport :=
  let counted : BatchReport :=
    { batch_id := rep.batch_id,
      total_items := rep.total_items,
      processed_items := rep.processed_items + 1,
      successful_items := rep.successful_items + (if result.success then 1 else 0),
      failed_items := rep.failed_items + (if result.success then 0 else 1),
      results := rep.results ++ [result],
      errors := rep.errors ++
        (if result.success then []
         else match result.error_message with
           | some e => if e = "" then [] else ["Item " ++ item.id ++ ": " ++ e]
           | none => []) }
  match callbackOutcome with
  | Except.ok _ => counted
  | Except.error e =>
    let flagged := { counted with failed_items := counted.failed_items + 1 }
    { flagged with
      errors := flagged.errors ++ ["Erro crítico no item " ++ item.id ++ ": " ++ e] }

/-- The worker/collection loop of `process_batch` over the items in
completion order, threading the shared cache state and the tracker's
completed-item count (`progress.update()` runs before the callback). -/
def processBatchAux (collab : Collaborators) (pickleSize : PyDict → Nat)
    (now elapsed : Nat) (enableAnalysis enableCache : Bool) (pc : ProgressCallback) :
    List BatchItem → BatchReport × CacheState × Nat → BatchReport × CacheState × Nat
  | [], acc => acc
  | item :: rest, (rep, s, completed) =>
    let out := processSingleItem collab pickleSize s now elapsed item
      enableAnalysis enableCache
    processBatchAux collab pickleSize now elapsed enableAnalysis enableCache pc rest
      (collectResult rep item out.result (cbRun pc (completed + 1)), out.cache,
       completed + 1)

/-- The zero-initialized report built at the top of `process_batch`. -/
def initReport (batchId : String) (totalItems : Nat) : BatchReport :=
  { batch_id := batchId, total_items := totalItems, processed_items := 0,
    successful_items := 0, failed_items := 0, results := [], errors := [] }

/-- `BatchProcessor.process_batch`: initialize the report, run every item
through `_process_single_item`, collect each outcome (invoking the
optional progress callback after each).  `items` is the batch in
completion order (the `as_completed` order of the worker pool). -/
def processBatch (collab : Collaborators) (pickleSize : PyDict → Nat)
    (s0 : CacheState) (now elapsed : Nat) (batchId : String) (pc : ProgressCallback)
    (items : List BatchItem) (enableAnalysis enableCache : Bool) :
    BatchReport × CacheState × Nat :=
  processBatchAux collab pickleSize now elapsed enableAnalysis enableCache pc items
    (initReport batchId items.length, s0, 0)

/-!
## `ProgressTracker` (`src/chains/batch_processor.py`)

Python floats are idealized as rationals; `round(x, n)` is modelled by
round-half-to-even on the rational value.  `get_progress` divides
`completed_items / total_items` with no zero guard, so a tracker with
`total_items = 0` raises `ZeroDivisionError`; this is the `Except.error`
branch.
-/

/-- Round-half-to-even on a rational (Python's `round` on the idealized
real value). -/
def roundHalfEven (q : ℚ) : ℤ :=
  let fl := ⌊q⌋
  let fr := q - fl
  if fr < 1/2 then fl
  else if 1/2 < fr then fl + 1
  else if 2 ∣ fl then fl else fl + 1

/-- Python's `round(x, d)` on rationals. -/
def pyRound (q : ℚ) (d : Nat) : ℚ := (roundHalfEven (q * 10 ^ d) : ℚ) / 10 ^ d

/-- The `ProgressTracker` state: `total_items`, `completed_items`, and the
`time.time()` value captured at construction. -/
structure ProgressTracker where
  total_items : Nat
  completed_items : Nat
  start_time : ℚ

/-- The record returned by `ProgressTracker.get_progress`. -/
structure ProgressInfo where
  total_items : Nat
  completed_items : Nat
  progress_percent : ℚ
  elapsed_time_seconds : ℚ
  eta_seconds : ℚ
  avg_time_per_item : ℚ

/-- `ProgressTracker.get_progress`: computes
`(completed_items / total_items) * 100` with no guard, so `total_items = 0`
raises `ZeroDivisionError`; otherwise assembles the rounded progress
record, with the ETA fields zero until the first completion. -/
def getProgress (t : ProgressTracker) (now : ℚ) : Except String ProgressInfo :=
  if t.total_items = 0 then
    .error "ZeroDivisionError"
  else
    let elapsedTime : ℚ := now - t.start_time
    let progressPercent : ℚ := ((t.completed_items : ℚ) / (t.total_items : ℚ)) * 100
    let avgTimePerItem : ℚ :=
      if 0 < t.completed_items then elapsedTime / (t.completed_items : ℚ) else 0
    let etaSeconds : ℚ :=
      if 0 < t.completed_items then
        avgTimePerItem * ((t.total_items : ℚ) - (t.completed_items : ℚ))
      else 0
    .ok { total_items := t.total_items, completed_items := t.completed_items,
          progress_percent := pyRound progressPercent 2,
          elapsed_time_seconds := pyRound elapsedTime 2,
          eta_seconds := pyRound etaSeconds 2,
          avg_time_per_item := pyRound avgTimePerItem 3 }

/-!
## Helper lemmas
-/

section Helpers

theorem lookup_insertKey_self {β : Type} (l : List (String × β)) (k : String) (v : β) :
    (insertKey l k v).lookup k = some v := by
  simp [insertKey, List.lookup]

theorem lookup_eraseKey_self {β : Type} (l : List (String × β)) (k : String) :
    (eraseKey l k).lookup k = none := by
  induction l with
  | nil => rfl
  | cons hd tl ih =>
    obtain ⟨a, b⟩ := hd
    by_cases h : a = k
    · simpa [eraseKey, List.filter_cons, h] using ih
    · have h1 : ((a, b).1 != k) = true := by simpa using h
      have h2 : (k == a) = false := by simpa using Ne.symm h
      simp only [eraseKey, List.filter_cons, h1, if_true]
      simp only [List.lookup, h2]
      simpa [eraseKey] using ih

theorem lookup_eraseKey_ne {β : Type} (l : List (String × β)) (k v : String) (h : k ≠ v) :
    (eraseKey l v).lookup k = l.lookup k := by
  induction l with
  | nil => rfl
  | cons hd tl ih =>
    obtain ⟨a, b⟩ := hd
    by_cases ha : a = v
    · have h2 : (k == a) = false := by
        simp only [beq_eq_false_iff_ne, ne_eq]
        exact fun e => h (e.trans ha)
      simp only [eraseKey, List.filter_cons, show ((a, b).1 != v) = false by simpa using ha,
        if_false, List.lookup, h2]
      simpa [eraseKey] using ih
    · have hkeep : ((a, b).1 != v) = true := by simpa using ha
      by_cases hk : k = a
      · simp [eraseKey, List.filter_cons, hkeep, List.lookup, hk]
      · have h2 : (k == a) = false := by simpa using hk
        simp only [eraseKey, List.filter_cons, hkeep, if_true, List.lookup, h2]
        simpa [eraseKey] using ih

theorem lookup_eq_none_keys {β : Type} (l : List (String × β)) (k : String)
    (h : l.lookup k = none) : ∀ p ∈ l, p.1 ≠ k := by
  induction l with
  | nil => intro p hp; cases hp
  | cons hd tl ih =>
    obtain ⟨a, b⟩ := hd
    intro p hp
    have hka : (k == a) = false := by
      cases hc : (k == a) with
      | false => rfl
      | true => simp [List.lookup, hc] at h
    have hne : a ≠ k := by
      intro e
      rw [e] at hka
      simp at hka
    have htl : List.lookup k tl = none := by simpa [List.lookup, hka] using h
    rcases List.mem_cons.mp hp with hph | hp
    · rw [hph]; exact hne
    · exact ih htl p hp

theorem mem_cleanupVictims (l : List (String × CacheRow)) (needed freed : Nat) :
    ∀ x ∈ cleanupVictims l needed freed, x ∈ l := by
  induction l generalizing freed with
  | nil => intro x hx; cases hx
  | cons hd tl ih =>
    intro x hx
    by_cases h : freed ≥ needed
    · simp [cleanupVictims, h] at hx
    · rw [cleanupVictims, if_neg h] at hx
      rcases List.mem_cons.mp hx with hxh | hx
      · rw [hxh]; exact List.mem_cons_self _ _
      · exact List.mem_cons_of_mem _ (ih _ x hx)

theorem bumpStats_blobs (s : CacheState) (k : String) (now : Nat) :
    (bumpStats s k now).blobs = s.blobs := rfl

theorem removeEntry_foldl_lookup (victims : List (String × CacheRow)) (st : CacheState)
    (k : String) (h : ∀ v ∈ victims, v.1 ≠ k) :
    ((victims.foldl (fun acc v => removeEntry acc v.1) st).blobs.lookup k
        = st.blobs.lookup k) ∧
    ((victims.foldl (fun acc v => removeEntry acc v.1) st).rows.lookup k
        = st.rows.lookup k) := by
  induction victims generalizing st with
  | nil => exact ⟨rfl, rfl⟩
  | cons hd tl ih =>
    have hhd : hd.1 ≠ k := h hd (List.mem_cons_self _ _)
    have htl : ∀ v ∈ tl, v.1 ≠ k := fun v hv => h v (List.mem_cons_of_mem _ hv)
    simp only [List.foldl_cons]
    refine ⟨?_, ?_⟩
    · rw [(ih (removeEntry st hd.1) htl).1]
      exact lookup_eraseKey_ne _ _ _ (Ne.symm hhd)
    · rw [(ih (removeEntry st hd.1) htl).2]
      exact lookup_eraseKey_ne _ _ _ (Ne.symm hhd)

end Helpers

/-!
## Claim theorems
-/

/-- C8 counterexample: the key derivation is **not** injective on input
triples — distinct triples whose pipe-joined serializations coincide yield
the same cache key.  `("a|b","c","d")` and `("a","b|c","d")` are distinct
yet both hash the string `"a|b|c|d"`. -/
theorem generateKey_not_injective_cx :
    generateKey "a|b" "c" "d" = generateKey "a" "b|c" "d" ∧
      ¬(("a|b", "c", "d") = (("a" : String), ("b|c" : String), ("d" : String))) := by
  exact ⟨rfl, by decide⟩

/-- The sixteen characters a lowercase hex digest may contain. -/
def hexChars : List Char := "0123456789abcdef".data

theorem round_length (st : List Nat) (kw : Nat × Nat) :
    (SHA256.round st kw).length = st.length := by
  rcases st with _ | ⟨a, _ | ⟨b, _ | ⟨c, _ | ⟨d, _ | ⟨e, _ | ⟨f, _ | ⟨g, _ | ⟨h, _ | ⟨i, tl⟩⟩⟩⟩⟩⟩⟩⟩⟩ <;> rfl

theorem foldl_round_length (l : List (Nat × Nat)) (h : List Nat) :
    (l.foldl SHA256.round h).length = h.length := by
  induction l generalizing h with
  | nil => rfl
  | cons hd tl ih => rw [List.foldl_cons, ih, round_length]

theorem compress_length (h block : List Nat) (hh : h.length = 8) :
    (SHA256.compress h block).length = 8 := by
  unfold SHA256.compress
  rw [List.length_map, List.length_zip, foldl_round_length, hh, Nat.min_self]

theorem foldl_compress_length (blocks : List (List Nat)) (h : List Nat) (hh : h.length = 8) :
    (blocks.foldl SHA256.compress h).length = 8 := by
  induction blocks generalizing h with
  | nil => exact hh
  | cons hd tl ih => exact ih _ (compress_length _ _ hh)

theorem digestWords_length (msg : List Nat) : (SHA256.digestWords msg).length = 8 := by
  unfold SHA256.digestWords
  exact foldl_compress_length _ _ rfl

theorem toHex8_length (w : Nat) : (SHA256.toHex8 w).length = 8 := by
  simp [SHA256.toHex8]

theorem hexDigest_length (msg : List Nat) : (SHA256.hexDigest msg).length = 64 := by
  show ((SHA256.digestWords msg).map SHA256.toHex8).flatten.length = 64
  rw [List.length_flatten]
  have h8 := digestWords_length msg
  generalize hw : SHA256.digestWords msg = ws at h8
  rcases ws with _ | ⟨a, _ | ⟨b, _ | ⟨c, _ | ⟨d, _ | ⟨e, _ | ⟨f, _ | ⟨g, _ | ⟨h, _ | ⟨i, tl⟩⟩⟩⟩⟩⟩⟩⟩⟩ <;>
    simp_all [toHex8_length]

theorem hexDigit_mem (m : Nat) : SHA256.hexDigit (m % 16) ∈ hexChars := by
  have hlt : m % 16 < 16 := Nat.mod_lt _ (by norm_num)
  generalize hr : m % 16 = r at hlt
  interval_cases r <;> decide

theorem hexDigest_chars (msg : List Nat) :
    ∀ c ∈ (SHA256.hexDigest msg).data, c ∈ hexChars := by
  intro c hc
  have hc' : c ∈ ((SHA256.digestWords msg).map SHA256.toHex8).flatten := hc
  rw [List.mem_flatten] at hc'
  obtain ⟨blk, hblk, hcblk⟩ := hc'
  rw [List.mem_map] at hblk
  obtain ⟨w, _, rfl⟩ := hblk
  rw [SHA256.toHex8, List.mem_map] at hcblk
  obtain ⟨i, _, rfl⟩ := hcblk
  exact hexDigit_mem _

/-- C8 (amended): the cache key is deterministically derived — equal
triples, and more generally any two triples with the same pipe-joined
serialization `cacheInput`, yield the same key — and the key is a
fixed-length (64-character) lowercase hexadecimal digest.  Injectivity on
triples does **not** hold (see `generateKey_not_injective_cx`); equality
of keys is governed by the joined serialization, not the triple. -/
theorem generateKey_amended (p t o p' t' o' : String)
    (hjoin : cacheInput p t o = cacheInput p' t' o') :
    generateKey p t o = generateKey p' t' o' ∧
      (generateKey p t o).length = 64 ∧
      ∀ c ∈ (generateKey p t o).data, c ∈ hexChars := by
  refine ⟨?_, hexDigest_length _, hexDigest_chars _⟩
  unfold generateKey
  rw [hjoin]

/-- Witness for `generateKey_amended` at a concrete input. -/
theorem generateKey_amended_witness :
    cacheInput "a|b" "c" "d" = cacheInput "a" "b|c" "d" ∧
      (generateKey "a|b" "c" "d" = generateKey "a" "b|c" "d" ∧
        (generateKey "a|b" "c" "d").length = 64 ∧
        ∀ c ∈ (generateKey "a|b" "c" "d").data, c ∈ hexChars) :=
  ⟨rfl, generateKey_amended "a|b" "c" "d" "a" "b|c" "d" rfl⟩

/-- C9: `ProgressTracker.get_progress` divides `completed_items` by
`total_items` with no zero guard: a tracker constructed with
`total_items = 0` raises `ZeroDivisionError` instead of returning a
progress record, and the derived values are only defined when
`total_items` is nonzero. -/
theorem getProgress_zero_division (t : ProgressTracker) (now : ℚ) :
    (t.total_items = 0 → getProgress t now = .error "ZeroDivisionError") ∧
      (t.total_items ≠ 0 → ∃ info, getProgress t now = .ok info) := by
  constructor
  · intro h
    simp [getProgress, h]
  · intro h
    unfold getProgress
    rw [if_neg h]
    exact ⟨_, rfl⟩

/-- Witness for `getProgress_zero_division`: a tracker with
`total_items = 0` and three completions raises. -/
theorem getProgress_zero_division_witness :
    (({ total_items := 0, completed_items := 3, start_time := 0 } : ProgressTracker).total_items
        = 0) ∧
      getProgress { total_items := 0, completed_items := 3, start_time := 0 } 5
        = .error "ZeroDivisionError" :=
  ⟨rfl, (getProgress_zero_division { total_items := 0, completed_items := 3, start_time := 0 } 5).1
    rfl⟩

/-!
## Pipeline reduction lemmas
-/

section PipelineLemmas

theorem cacheGet_cold (s : CacheState) (now : Nat) (p t o : String)
    (hcold : s.rows.lookup (generateKey p t o) = none) :
    cacheGet s now p t o = (none, s) := by
  unfold cacheGet
  dsimp only
  rw [hcold]

theorem cacheGet_live (s : CacheState) (now : Nat) (p t o : String)
    (row : CacheRow) (d : PyDict)
    (hrow : s.rows.lookup (generateKey p t o) = some row)
    (hlive : expiredB row.expires_at now = false)
    (hblob : s.blobs.lookup (generateKey p t o) = some d) :
    cacheGet s now p t o = (some d, bumpStats s (generateKey p t o) now) := by
  unfold cacheGet
  dsimp only
  rw [hrow]
  dsimp only
  rw [if_neg (by rw [hlive]; exact Bool.false_ne_true)]
  rw [bumpStats_blobs, hblob]

theorem computeItem_optCalls (collab : Collaborators) (pickleSize : PyDict → Nat)
    (s : CacheState) (now elapsed : Nat) (item : BatchItem) (ea ec : Bool) :
    (computeItem collab pickleSize s now elapsed item ea ec).optCalls = 1 := by
  unfold computeItem
  rcases h1 : collab.optimize item.prompt item.target_llm with e | op
  · rfl
  · dsimp only
    rcases h2 : collab.route op item.target_llm with e2 | r
    · rfl
    · dsimp only
      rcases h3 : (if ea = true then
          Except.map some (collab.analyze item.prompt item.target_llm)
        else Except.ok none) with e3 | a <;> rfl

theorem computeItem_time (collab : Collaborators) (pickleSize : PyDict → Nat)
    (s : CacheState) (now elapsed : Nat) (item : BatchItem) (ea ec : Bool) :
    (computeItem collab pickleSize s now elapsed item ea ec).result.processing_time_seconds
      = elapsed := by
  unfold computeItem
  rcases h1 : collab.optimize item.prompt item.target_llm with e | op
  · rfl
  · dsimp only
    rcases h2 : collab.route op item.target_llm with e2 | r
    · rfl
    · dsimp only
      rcases h3 : (if ea = true then
          Except.map some (collab.analyze item.prompt item.target_llm)
        else Except.ok none) with e3 | a <;> rfl

theorem computeItem_item_id (collab : Collaborators) (pickleSize : PyDict → Nat)
    (s : CacheState) (now elapsed : Nat) (item : BatchItem) (ea ec : Bool) :
    (computeItem collab pickleSize s now elapsed item ea ec).result.item_id = item.id := by
  unfold computeItem
  rcases h1 : collab.optimize item.prompt item.target_llm with e | op
  · rfl
  · dsimp only
    rcases h2 : collab.route op item.target_llm with e2 | r
    · rfl
    · dsimp only
      rcases h3 : (if ea = true then
          Except.map some (collab.analyze item.prompt item.target_llm)
        else Except.ok none) with e3 | a <;> rfl

theorem computeItem_opt_error (collab : Collaborators) (pickleSize : PyDict → Nat)
    (s : CacheState) (now elapsed : Nat) (item : BatchItem) (ea ec : Bool) (e : String)
    (h : collab.optimize item.prompt item.target_llm = .error e) :
    computeItem collab pickleSize s now elapsed item ea ec
      = ⟨failedResult item elapsed e, s, 1, 0, 0⟩ := by
  unfold computeItem
  rw [h]

theorem computeItem_route_error (collab : Collaborators) (pickleSize : PyDict → Nat)
    (s : CacheState) (now elapsed : Nat) (item : BatchItem) (ea ec : Bool)
    (op e : String)
    (hopt : collab.optimize item.prompt item.target_llm = .ok op)
    (hroute : collab.route op item.target_llm = .error e) :
    computeItem collab pickleSize s now elapsed item ea ec
      = ⟨failedResult item elapsed e, s, 1, 1, 0⟩ := by
  unfold computeItem
  rw [hopt]
  dsimp only
  rw [hroute]

theorem computeItem_ana_error (collab : Collaborators) (pickleSize : PyDict → Nat)
    (s : CacheState) (now elapsed : Nat) (item : BatchItem) (ec : Bool)
    (op : String) (r : RouteOut) (e : String)
    (hopt : collab.optimize item.prompt item.target_llm = .ok op)
    (hroute : collab.route op item.target_llm = .ok r)
    (hana : collab.analyze item.prompt item.target_llm = .error e) :
    computeItem collab pickleSize s now elapsed item true ec
      = ⟨failedResult item elapsed e, s, 1, 1, 1⟩ := by
  unfold computeItem
  rw [hopt]
  dsimp only
  rw [hroute]
  dsimp only
  rw [if_pos rfl, hana]
  rfl

theorem processSingleItem_cold (collab : Collaborators) (pickleSize : PyDict → Nat)
    (s : CacheState) (now elapsed : Nat) (item : BatchItem) (ea ec : Bool)
    (hcold : s.rows.lookup (generateKey item.prompt item.target_llm item.optimization_type)
      = none) :
    processSingleItem collab pickleSize s now elapsed item ea ec
      = computeItem collab pickleSize s now elapsed item ea ec := by
  unfold processSingleItem
  dsimp only
  rw [cacheGet_cold s now _ _ _ hcold, ite_self]

theorem processSingleItem_time (collab : Collaborators) (pickleSize : PyDict → Nat)
    (s : CacheState) (now elapsed : Nat) (item : BatchItem) (ea ec : Bool) :
    (processSingleItem collab pickleSize s now elapsed item ea ec).result.processing_time_seconds
      = elapsed := by
  unfold processSingleItem
  dsimp only
  rcases hgot : (if ec = true then
      cacheGet s now item.prompt item.target_llm item.optimization_type
    else (none, s)) with ⟨cached, s1⟩
  rcases cached with _ | d
  · exact computeItem_time collab pickleSize s1 now elapsed item ea ec
  · dsimp only
    by_cases hemp : d.isEmpty = true
    · rw [if_pos hemp]
      exact computeItem_time collab pickleSize s1 now elapsed item ea ec
    · rw [if_neg hemp]

theorem processSingleItem_item_id (collab : Collaborators) (pickleSize : PyDict → Nat)
    (s : CacheState) (now elapsed : Nat) (item : BatchItem) (ea ec : Bool) :
    (processSingleItem collab pickleSize s now elapsed item ea ec).result.item_id
      = item.id := by
  unfold processSingleItem
  dsimp only
  rcases hgot : (if ec = true then
      cacheGet s now item.prompt item.target_llm item.optimization_type
    else (none, s)) with ⟨cached, s1⟩
  rcases cached with _ | d
  · exact computeItem_item_id collab pickleSize s1 now elapsed item ea ec
  · dsimp only
    by_cases hemp : d.isEmpty = true
    · rw [if_pos hemp]
      exact computeItem_item_id collab pickleSize s1 now elapsed item ea ec
    · rw [if_neg hemp]

end PipelineLemmas

/-!
## Concrete fixtures used by counterexamples and witnesses
-/

/-- The cache key of the concrete triple `("p", "t", "o")`. -/
def demoKey : String := generateKey "p" "t" "o"

/-- A serialization-size function that assigns every payload `n` bytes. -/
def constSize (n : Nat) : PyDict → Nat := fun _ => n

/-- A concrete stored payload. -/
def oldPayload : PyDict := [("optimized_prompt", PyVal.str "old")]

/-- A concrete replacement payload. -/
def newPayload : PyDict := [("optimized_prompt", PyVal.str "new")]

/-- An empty cache with a large byte budget. -/
def emptyCache : CacheState :=
  { rows := [], blobs := [], maxSize := 1000000, defaultTtl := 86400 }

/-- A 900-byte live row for `demoKey`. -/
def demoRow : CacheRow := ⟨0, some 999999, 0, none, 900, []⟩

/-- A cache holding one 900-byte live entry for `demoKey` under a
1000-byte budget (so a replacing `set` triggers the eviction pass). -/
def tightBudgetPre : CacheState :=
  { rows := [(demoKey, demoRow)], blobs := [(demoKey, oldPayload)],
    maxSize := 1000, defaultTtl := 86400 }

/-- The same single live entry under a large budget (no eviction). -/
def bigBudgetPre : CacheState :=
  { rows := [(demoKey, demoRow)], blobs := [(demoKey, oldPayload)],
    maxSize := 1000000, defaultTtl := 86400 }

/-- A cache holding one live entry for `demoKey` whose stored payload is
`d`. -/
def livePayloadState (d : PyDict) : CacheState :=
  { rows := [(demoKey, ⟨0, some 999999, 0, none, 10, []⟩)], blobs := [(demoKey, d)],
    maxSize := 1000000, defaultTtl := 86400 }

/-- A cache whose single entry for `demoKey` expired at time 10. -/
def expiredState : CacheState :=
  { rows := [(demoKey, ⟨0, some 10, 0, none, 10, []⟩)], blobs := [(demoKey, oldPayload)],
    maxSize := 1000000, defaultTtl := 86400 }

/-- A cache whose single entry for `demoKey` has `expires_at = NULL`. -/
def noExpiryState : CacheState :=
  { rows := [(demoKey, ⟨0, none, 0, none, 10, []⟩)], blobs := [(demoKey, oldPayload)],
    maxSize := 1000000, defaultTtl := 86400 }

/-- The batch item whose (prompt, target, optimization) triple is
`("p", "t", "o")`. -/
def demoItem : BatchItem := ⟨"i1", "p", "t", "o"⟩

/-- Collaborators that always succeed. -/
def okCollab : Collaborators :=
  ⟨fun p _ => .ok (p ++ "!"), fun p _ => .ok ⟨p ++ "@", PyVal.pyNone⟩, fun _ _ => .ok []⟩

/-- Collaborators whose optimizer always raises. -/
def failOptCollab : Collaborators :=
  ⟨fun _ _ => .error "optimizer exploded", fun p _ => .ok ⟨p, PyVal.pyNone⟩,
   fun _ _ => .ok []⟩

/-- Collaborators for the five-item scenario: the router raises exactly on
the third item's prompt. -/
def scenarioCollab : Collaborators :=
  ⟨fun p _ => .ok p,
   fun p _ => if p = "P3" then .error "router raised" else .ok ⟨p, PyVal.pyNone⟩,
   fun _ _ => .ok []⟩

/-- The five-item scenario batch; item `"3"` is the one whose router step
raises. -/
def scenarioItems : List BatchItem :=
  [⟨"1", "P1", "t", "o"⟩, ⟨"2", "P2", "t", "o"⟩, ⟨"3", "P3", "t", "o"⟩,
   ⟨"4", "P4", "t", "o"⟩, ⟨"5", "P5", "t", "o"⟩]

/-!
## Claims C3, C5, C6, C7, C10
-/

/-- C10: `_process_single_item` decides hit versus miss by Python
truthiness of the returned payload: when the live, unexpired entry's
stored payload is a falsy value (the empty dict), the lookup is treated
as a miss — the pipeline falls through to the compute path and the
optimizer is invoked (once), so at-most-once-compute holds only for
truthy stored payloads. -/
theorem falsy_payload_treated_as_miss (collab : Collaborators) (pickleSize : PyDict → Nat)
    (s : CacheState) (now elapsed : Nat) (item : BatchItem) (ea : Bool)
    (row : CacheRow) (d : PyDict)
    (hrow : s.rows.lookup (generateKey item.prompt item.target_llm item.optimization_type)
      = some row)
    (hlive : expiredB row.expires_at now = false)
    (hblob : s.blobs.lookup (generateKey item.prompt item.target_llm item.optimization_type)
      = some d)
    (hempty : d.isEmpty = true) :
    processSingleItem collab pickleSize s now elapsed item ea true
      = computeItem collab pickleSize
          (bumpStats s (generateKey item.prompt item.target_llm item.optimization_type) now)
          now elapsed item ea true ∧
      (processSingleItem collab pickleSize s now elapsed item ea true).optCalls = 1 := by
  have hg := cacheGet_live s now _ _ _ row d hrow hlive hblob
  have heq : processSingleItem collab pickleSize s now elapsed item ea true
      = computeItem collab pickleSize
          (bumpStats s (generateKey item.prompt item.target_llm item.optimization_type) now)
          now elapsed item ea true := by
    unfold processSingleItem
    dsimp only
    rw [if_pos rfl, hg]
    dsimp only
    rw [if_pos hempty]
  exact ⟨heq, by rw [heq]; exact computeItem_optCalls _ _ _ _ _ _ _ _⟩

/-- Witness for `falsy_payload_treated_as_miss`: a live entry for
`demoKey` stores the empty dict; processing the matching item invokes
the optimizer once. -/
theorem falsy_payload_treated_as_miss_witness :
    ((livePayloadState []).rows.lookup (generateKey "p" "t" "o")
        = some ⟨0, some 999999, 0, none, 10, []⟩) ∧
      (expiredB (some 999999) 5 = false) ∧
      ((livePayloadState []).blobs.lookup (generateKey "p" "t" "o") = some []) ∧
      (([] : PyDict).isEmpty = true) ∧
      (processSingleItem okCollab (constSize 10) (livePayloadState []) 5 7 demoItem
        true true).optCalls = 1 :=
  ⟨rfl, rfl, rfl, rfl,
    (falsy_payload_treated_as_miss okCollab (constSize 10) (livePayloadState []) 5 7
      demoItem true ⟨0, some 999999, 0, none, 10, []⟩ [] rfl rfl rfl rfl).2⟩

/-- C3 counterexample: an item whose key has a live, unexpired cache
entry (stored payload: the empty dict) is **not** served from the cache —
the optimizer collaborator is invoked (once, not zero times), because the
hit test is Python truthiness of the payload. -/
theorem warm_cache_zero_calls_cx :
    (cacheGet (livePayloadState []) 5 "p" "t" "o").1 = some [] ∧
      (processSingleItem okCollab (constSize 10) (livePayloadState []) 5 7 demoItem
          true true).optCalls = 1 :=
  ⟨rfl, rfl⟩

/-- C3 (amended): for an item whose key has a live, unexpired cache entry
whose stored payload is *truthy* (a non-empty dict), the pipeline returns
the cached result — fields drawn from the stored payload — and invokes no
collaborator: optimizer, router and analyzer run zero times. -/
theorem warm_truthy_cache_hit (collab : Collaborators) (pickleSize : PyDict → Nat)
    (s : CacheState) (now elapsed : Nat) (item : BatchItem) (ea : Bool)
    (row : CacheRow) (d : PyDict)
    (hrow : s.rows.lookup (generateKey item.prompt item.target_llm item.optimization_type)
      = some row)
    (hlive : expiredB row.expires_at now = false)
    (hblob : s.blobs.lookup (generateKey item.prompt item.target_llm item.optimization_type)
      = some d)
    (htruthy : d.isEmpty = false) :
    let out := processSingleItem collab pickleSize s now elapsed item ea true
    out.optCalls = 0 ∧ out.routeCalls = 0 ∧ out.anaCalls = 0 ∧
      out.result.success = true ∧
      out.result.optimized_prompt = pyDictGetD d "optimized_prompt" (PyVal.str item.prompt) ∧
      out.result.formatted_prompt = pyDictGetD d "formatted_prompt" (PyVal.str item.prompt) ∧
      out.cache = bumpStats s
        (generateKey item.prompt item.target_llm item.optimization_type) now := by
  have hg := cacheGet_live s now _ _ _ row d hrow hlive hblob
  have heq : processSingleItem collab pickleSize s now elapsed item ea true
      = ⟨{ item_id := item.id, original_prompt := item.prompt,
           optimized_prompt := pyDictGetD d "optimized_prompt" (PyVal.str item.prompt),
           formatted_prompt := pyDictGetD d "formatted_prompt" (PyVal.str item.prompt),
           target_llm := item.target_llm, processing_time_seconds := elapsed,
           success := true, error_message := none,
           analysis := pyDictGetD d "analysis" PyVal.pyNone,
           routing_metadata := pyDictGetD d "routing_metadata" PyVal.pyNone },
         bumpStats s (generateKey item.prompt item.target_llm item.optimization_type) now,
         0, 0, 0⟩ := by
    unfold processSingleItem
    dsimp only
    rw [if_pos rfl, hg]
    dsimp only
    rw [if_neg (by rw [htruthy]; exact Bool.false_ne_true)]
  rw [heq]
  exact ⟨rfl, rfl, rfl, rfl, rfl, rfl, rfl⟩

/-- Witness for `warm_truthy_cache_hit`: a live entry for `demoKey`
stores a non-empty payload; processing the matching item makes zero
collaborator calls and returns the cached fields. -/
theorem warm_truthy_cache_hit_witness :
    ((livePayloadState oldPayload).rows.lookup (generateKey "p" "t" "o")
        = some ⟨0, some 999999, 0, none, 10, []⟩) ∧
      (expiredB (some 999999) 5 = false) ∧
      ((livePayloadState oldPayload).blobs.lookup (generateKey "p" "t" "o")
        = some oldPayload) ∧
      (oldPayload.isEmpty = false) ∧
      (let out := processSingleItem okCollab (constSize 10) (livePayloadState oldPayload)
          5 7 demoItem true true
       out.optCalls = 0 ∧ out.routeCalls = 0 ∧ out.anaCalls = 0 ∧
         out.result.success = true ∧
         out.result.optimized_prompt
           = pyDictGetD oldPayload "optimized_prompt" (PyVal.str demoItem.prompt) ∧
         out.result.formatted_prompt
           = pyDictGetD oldPayload "formatted_prompt" (PyVal.str demoItem.prompt) ∧
         out.cache = bumpStats (livePayloadState oldPayload) (generateKey "p" "t" "o") 5) :=
  ⟨rfl, rfl, rfl, rfl,
    warm_truthy_cache_hit okCollab (constSize 10) (livePayloadState oldPayload) 5 7
      demoItem true ⟨0, some 999999, 0, none, 10, []⟩ oldPayload rfl rfl rfl rfl⟩

theorem cacheGet_missing_blob (s : CacheState) (now : Nat) (p t o : String)
    (hb : s.blobs.lookup (generateKey p t o) = none) :
    (cacheGet s now p t o).1 = none ∧
      (cacheGet s now p t o).2.rows.lookup (generateKey p t o) = none
        ∨ (cacheGet s now p t o) = (none, s) := by
  unfold cacheGet
  dsimp only
  cases hlk : s.rows.lookup (generateKey p t o) with
  | none => exact Or.inr rfl
  | some row =>
    dsimp only
    by_cases hexp : expiredB row.expires_at now = true
    · rw [if_pos hexp]
      exact Or.inl ⟨rfl, lookup_eraseKey_self _ _⟩
    · rw [if_neg hexp, bumpStats_blobs, hb]
      exact Or.inl ⟨rfl, lookup_eraseKey_self _ _⟩

/-- C5 counterexample: a replacing `set` that fails during the metadata
insert does **not** leave the previously stored entry intact: the
handler's unlink destroys the old blob while the rollback keeps the old
metadata row, so the entry is torn — the stale row is still present, the
blob is gone, and the next `get` misses instead of returning the old
payload. -/
theorem atomic_replace_cx :
    (cacheSet (constSize 200) bigBudgetPre 0 "p" "t" newPayload "o" none []
        (some .metaInsert)).1 = false ∧
      (cacheSet (constSize 200) bigBudgetPre 0 "p" "t" newPayload "o" none []
          (some .metaInsert)).2.rows.lookup demoKey = some demoRow ∧
      (cacheSet (constSize 200) bigBudgetPre 0 "p" "t" newPayload "o" none []
          (some .metaInsert)).2.blobs.lookup demoKey = none ∧
      (cacheGet (cacheSet (constSize 200) bigBudgetPre 0 "p" "t" newPayload "o" none []
          (some .metaInsert)).2 1 "p" "t" "o").1 = none :=
  ⟨rfl, rfl, rfl, rfl⟩

/-- C5 (amended): on any failure inside `set`, no blob remains for the
key (the first half of the claim holds: no orphaned blob), but a failing
*replacing* `set` is not atomic — the previous entry is destroyed rather
than left intact (see `atomic_replace_cx`); whatever stale metadata row
survives is self-healed on the next `get`, which misses and leaves no row
for the key. -/
theorem failed_set_no_orphan (pickleSize : PyDict → Nat) (s : CacheState) (now : Nat)
    (p t : String) (data : PyDict) (o : String) (ttlHours : Option Nat)
    (tags : List String) (fp : FailPoint) (now' : Nat) :
    let out := cacheSet pickleSize s now p t data o ttlHours tags (some fp)
    out.1 = false ∧
      out.2.blobs.lookup (generateKey p t o) = none ∧
      (cacheGet out.2 now' p t o).1 = none ∧
      (cacheGet out.2 now' p t o).2.blobs.lookup (generateKey p t o) = none := by
  have hout : ∀ st : CacheState, st.blobs.lookup (generateKey p t o) = none →
      (cacheGet st now' p t o).1 = none ∧
        (cacheGet st now' p t o).2.blobs.lookup (generateKey p t o) = none := by
    intro st hb
    rcases cacheGet_missing_blob st now' p t o hb with ⟨h1, _⟩ | h2
    · refine ⟨h1, ?_⟩
      unfold cacheGet
      dsimp only
      cases hlk : st.rows.lookup (generateKey p t o) with
      | none => exact hb
      | some row =>
        dsimp only
        by_cases hexp : expiredB row.expires_at now' = true
        · rw [if_pos hexp]
          exact lookup_eraseKey_self _ _
        · rw [if_neg hexp, bumpStats_blobs, hb]
          exact lookup_eraseKey_self _ _
    · rw [h2]
      exact ⟨rfl, hb⟩
  cases fp with
  | blobWrite =>
    exact ⟨rfl, lookup_eraseKey_self _ _, (hout _ (lookup_eraseKey_self _ _)).1,
      (hout _ (lookup_eraseKey_self _ _)).2⟩
  | metaInsert =>
    exact ⟨rfl, lookup_eraseKey_self _ _, (hout _ (lookup_eraseKey_self _ _)).1,
      (hout _ (lookup_eraseKey_self _ _)).2⟩

/-- C7: for an entry whose `expires_at` is non-null and strictly in the
past (`now > expires_at`), `get` returns a miss — the stored blob is never
returned — and when the call returns, both the metadata row and the blob
are physically absent (`_remove_entry` ran synchronously); an entry with
`expires_at = NULL` never expires by TTL: `get` returns its blob at every
`now`. -/
theorem expired_entry_removed (s : CacheState) (now : Nat) (p t o : String)
    (row : CacheRow)
    (hrow : s.rows.lookup (generateKey p t o) = some row) :
    (∀ texp, row.expires_at = some texp → texp < now →
      (cacheGet s now p t o).1 = none ∧
        (cacheGet s now p t o).2.rows.lookup (generateKey p t o) = none ∧
        (cacheGet s now p t o).2.blobs.lookup (generateKey p t o) = none) ∧
      (row.expires_at = none → ∀ d, s.blobs.lookup (generateKey p t o) = some d →
        (cacheGet s now p t o).1 = some d) := by
  constructor
  · intro texp hexp hlt
    have hexpB : expiredB row.expires_at now = true := by
      rw [hexp]
      simpa [expiredB] using hlt
    have hget : cacheGet s now p t o = (none, removeEntry s (generateKey p t o)) := by
      unfold cacheGet
      dsimp only
      rw [hrow]
      dsimp only
      rw [if_pos hexpB]
    rw [hget]
    exact ⟨rfl, lookup_eraseKey_self _ _, lookup_eraseKey_self _ _⟩
  · intro hnone d hblob
    rw [cacheGet_live s now p t o row d hrow (by rw [hnone]; rfl) hblob]

/-- Witness for `expired_entry_removed`: the entry of `expiredState`
expired at time 10, so a lookup at time 11 misses and removes it; the
entry of `noExpiryState` has `expires_at = NULL` and is still served at
an arbitrarily late time. -/
theorem expired_entry_removed_witness :
    (expiredState.rows.lookup (generateKey "p" "t" "o")
        = some ⟨0, some 10, 0, none, 10, []⟩) ∧
      ((10 : Nat) < 11) ∧
      ((cacheGet expiredState 11 "p" "t" "o").1 = none ∧
        (cacheGet expiredState 11 "p" "t" "o").2.rows.lookup (generateKey "p" "t" "o")
          = none ∧
        (cacheGet expiredState 11 "p" "t" "o").2.blobs.lookup (generateKey "p" "t" "o")
          = none) ∧
      (noExpiryState.rows.lookup (generateKey "p" "t" "o")
        = some ⟨0, none, 0, none, 10, []⟩) ∧
      ((cacheGet noExpiryState 999999999 "p" "t" "o").1 = some oldPayload) :=
  ⟨rfl, by norm_num,
    (expired_entry_removed expiredState 11 "p" "t" "o" ⟨0, some 10, 0, none, 10, []⟩
      rfl).1 10 rfl (by norm_num),
    rfl,
    (expired_entry_removed noExpiryState 999999999 "p" "t" "o" ⟨0, none, 0, none, 10, []⟩
      rfl).2 rfl oldPayload rfl⟩

/-- C6: any collaborator exception during the compute path is caught
inside `_process_single_item` and converted into a failed `BatchResult`
carrying the exception text (non-empty whenever the exception's text is);
the pipeline is a total function into `BatchResult`, so nothing propagates
to the scheduler; and the elapsed processing time is recorded in the
result for every item, succeed or fail.  The last conjunct is the spec
scenario: a batch of five items where item 3's router step raises yields
`processed_items = 5`, `successful_items = 4`, `failed_items = 1`, and
item 3's result carries the non-empty router error text. -/
theorem collaborator_error_isolated (collab : Collaborators) (pickleSize : PyDict → Nat)
    (s : CacheState) (now elapsed : Nat) (item : BatchItem) (ea ec : Bool) :
    ((processSingleItem collab pickleSize s now elapsed item ea
        ec).result.processing_time_seconds = elapsed) ∧
      (∀ e, s.rows.lookup (generateKey item.prompt item.target_llm item.optimization_type)
          = none →
        collab.optimize item.prompt item.target_llm = .error e → e ≠ "" →
        (processSingleItem collab pickleSize s now elapsed item ea ec).result.success
            = false ∧
          (processSingleItem collab pickleSize s now elapsed item ea ec).result.error_message
            = some e ∧
          (processSingleItem collab pickleSize s now elapsed item ea ec).result.error_message
            ≠ some "") ∧
      (∀ op e, s.rows.lookup (generateKey item.prompt item.target_llm item.optimization_type)
          = none →
        collab.optimize item.prompt item.target_llm = .ok op →
        collab.route op item.target_llm = .error e → e ≠ "" →
        (processSingleItem collab pickleSize s now elapsed item ea ec).result.success
            = false ∧
          (processSingleItem collab pickleSize s now elapsed item ea ec).result.error_message
            = some e ∧
          (processSingleItem collab pickleSize s now elapsed item ea ec).result.error_message
            ≠ some "") ∧
      (∀ op r e, s.rows.lookup (generateKey item.prompt item.target_llm item.optimization_type)
          = none →
        collab.optimize item.prompt item.target_llm = .ok op →
        collab.route op item.target_llm = .ok r → ea = true →
        collab.analyze item.prompt item.target_llm = .error e → e ≠ "" →
        (processSingleItem collab pickleSize s now elapsed item ea ec).result.success
            = false ∧
          (processSingleItem collab pickleSize s now elapsed item ea ec).result.error_message
            = some e ∧
          (processSingleItem collab pickleSize s now elapsed item ea ec).result.error_message
            ≠ some "") ∧
      ((processBatch scenarioCollab (constSize 10) emptyCache 0 1 "batch" none scenarioItems
          true false).1.processed_items = 5 ∧
        (processBatch scenarioCollab (constSize 10) emptyCache 0 1 "batch" none scenarioItems
          true false).1.successful_items = 4 ∧
        (processBatch scenarioCollab (constSize 10) emptyCache 0 1 "batch" none scenarioItems
          true false).1.failed_items = 1 ∧
        (processBatch scenarioCollab (constSize 10) emptyCache 0 1 "batch" none scenarioItems
          true false).1.errors = ["Item 3: router raised"] ∧
        (processBatch scenarioCollab (constSize 10) emptyCache 0 1 "batch" none scenarioItems
            true false).1.results.map (fun r => (r.item_id, r.success, r.error_message))
          = [("1", true, none), ("2", true, none), ("3", false, some "router raised"),
             ("4", true, none), ("5", true, none)]) := by
  refine ⟨processSingleItem_time _ _ _ _ _ _ _ _, ?_, ?_, ?_, rfl, rfl, rfl, rfl, rfl⟩
  · intro e hcold herr hne
    rw [processSingleItem_cold _ _ _ _ _ _ _ _ hcold,
      computeItem_opt_error _ _ _ _ _ _ _ _ _ herr]
    exact ⟨rfl, rfl, fun hc => hne (Option.some.inj hc)⟩
  · intro op e hcold hopt hroute hne
    rw [processSingleItem_cold _ _ _ _ _ _ _ _ hcold,
      computeItem_route_error _ _ _ _ _ _ _ _ _ _ hopt hroute]
    exact ⟨rfl, rfl, fun hc => hne (Option.some.inj hc)⟩
  · intro op r e hcold hopt hroute hea hana hne
    subst hea
    rw [processSingleItem_cold _ _ _ _ _ _ _ _ hcold,
      computeItem_ana_error _ _ _ _ _ _ _ _ _ _ hopt hroute hana]
    exact ⟨rfl, rfl, fun hc => hne (Option.some.inj hc)⟩

/-- Witness for `collaborator_error_isolated`: a cold cache and an
optimizer that raises with text "optimizer exploded" produce a failed
result carrying exactly that text. -/
theorem collaborator_error_isolated_witness :
    (emptyCache.rows.lookup (generateKey "p" "t" "o") = none) ∧
      (failOptCollab.optimize "p" "t" = .error "optimizer exploded") ∧
      ("optimizer exploded" ≠ "") ∧
      ((processSingleItem failOptCollab (constSize 10) emptyCache 0 7 demoItem true
          false).result.success = false ∧
        (processSingleItem failOptCollab (constSize 10) emptyCache 0 7 demoItem true
          false).result.error_message = some "optimizer exploded" ∧
        (processSingleItem failOptCollab (constSize 10) emptyCache 0 7 demoItem true
          false).result.error_message ≠ some "") :=
  ⟨rfl, rfl, by decide,
    (collaborator_error_isolated failOptCollab (constSize 10) emptyCache 0 7 demoItem
      true false).2.1 "optimizer exploded" rfl rfl (by decide)⟩

/-!
## Claim C1: batch report completeness
-/

theorem collectResult_processed (rep : BatchReport) (item : BatchItem) (r : BatchResult)
    (cb : Except String Unit) :
    (collectResult rep item r cb).processed_items = rep.processed_items + 1 := by
  rcases cb with e | u <;> rfl

theorem collectResult_results (rep : BatchReport) (item : BatchItem) (r : BatchResult)
    (cb : Except String Unit) :
    (collectResult rep item r cb).results = rep.results ++ [r] := by
  rcases cb with e | u <;> rfl

theorem collectResult_sum (rep : BatchReport) (item : BatchItem) (r : BatchResult) :
    (collectResult rep item r (Except.ok ())).successful_items
        + (collectResult rep item r (Except.ok ())).failed_items
      = rep.successful_items + rep.failed_items + 1 := by
  by_cases hs : r.success = true <;> simp [collectResult, hs] <;> omega

theorem collectResult_sum_error (rep : BatchReport) (item : BatchItem) (r : BatchResult)
    (e : String) :
    (collectResult rep item r (Except.error e)).successful_items
        + (collectResult rep item r (Except.error e)).failed_items
      = rep.successful_items + rep.failed_items + 2 := by
  by_cases hs : r.success = true <;> simp [collectResult, hs] <;> omega

theorem processBatchAux_spec (collab : Collaborators) (pickleSize : PyDict → Nat)
    (now elapsed : Nat) (ea ec : Bool) (pc : ProgressCallback) (items : List BatchItem)
    (rep : BatchReport) (s : CacheState) (c : Nat) :
    (processBatchAux collab pickleSize now elapsed ea ec pc items
          (rep, s, c)).1.processed_items
        = rep.processed_items + items.length ∧
      ((∀ n, cbRun pc n = Except.ok ()) →
        (processBatchAux collab pickleSize now elapsed ea ec pc items
              (rep, s, c)).1.successful_items
            + (processBatchAux collab pickleSize now elapsed ea ec pc items
              (rep, s, c)).1.failed_items
          = rep.successful_items + rep.failed_items + items.length) ∧
      (processBatchAux collab pickleSize now elapsed ea ec pc items
          (rep, s, c)).1.results.map (fun r => r.item_id)
        = rep.results.map (fun r => r.item_id) ++ items.map (fun i => i.id) := by
  induction items generalizing rep s c with
  | nil => exact ⟨rfl, fun _ => rfl, by simp [processBatchAux]⟩
  | cons item rest ih =>
    simp only [processBatchAux]
    obtain ⟨h1, h2, h3⟩ := ih
      (collectResult rep item
        (processSingleItem collab pickleSize s now elapsed item ea ec).result
        (cbRun pc (c + 1)))
      (processSingleItem collab pickleSize s now elapsed item ea ec).cache (c + 1)
    refine ⟨?_, ?_, ?_⟩
    · rw [h1, collectResult_processed]
      simp only [List.length_cons]
      omega
    · intro hcb
      have h2' := h2 hcb
      rw [hcb (c + 1)] at h2'
      rw [hcb (c + 1), h2', collectResult_sum]
      simp only [List.length_cons]
      omega
    · rw [h3, collectResult_results]
      simp [List.map_append, processSingleItem_item_id, List.append_assoc]

/-- A concrete two-item batch, submitted as `[itemA, itemB]`. -/
def itemA : BatchItem := ⟨"a", "PA", "t", "o"⟩

/-- The second item of the concrete two-item batch. -/
def itemB : BatchItem := ⟨"b", "PB", "t", "o"⟩

/-- A progress callback that always raises (with text "callback boom"). -/
def raisingCallback : ProgressCallback := some (fun _ => Except.error "callback boom")

/-- C1 counterexample: the claim fails when the caller-supplied progress
callback raises.  The callback runs inside the `try` after the item has
already been appended and counted; the `except` handler then increments
`failed_items` a second time.  For a one-item batch whose item succeeds
and whose callback raises, the finalized report has `processed_items = 1`
but `successful_items = 1` and `failed_items = 1`, so
`successful_items + failed_items = 2 ≠ 1 = K`. -/
theorem batch_counts_cx :
    (processBatch okCollab (constSize 10) emptyCache 0 1 "batch" raisingCallback [itemA]
        true false).1.processed_items = 1 ∧
      (processBatch okCollab (constSize 10) emptyCache 0 1 "batch" raisingCallback [itemA]
        true false).1.successful_items = 1 ∧
      (processBatch okCollab (constSize 10) emptyCache 0 1 "batch" raisingCallback [itemA]
        true false).1.failed_items = 1 ∧
      ¬((processBatch okCollab (constSize 10) emptyCache 0 1 "batch" raisingCallback
            [itemA] true false).1.successful_items
          + (processBatch okCollab (constSize 10) emptyCache 0 1 "batch" raisingCallback
            [itemA] true false).1.failed_items
          = ([itemA] : List BatchItem).length) ∧
      (processBatch okCollab (constSize 10) emptyCache 0 1 "batch" raisingCallback [itemA]
        true false).1.errors = ["Erro crítico no item a: callback boom"] :=
  ⟨rfl, rfl, rfl, by decide, by rfl⟩

/-- C1 (amended): for every batch of `K` submitted items, provided the
progress callback never raises (in particular when none is supplied), the
finalized report has `processed_items = K` and
`successful_items + failed_items = K`, and the ids of the collected
results are exactly the submitted ids in completion order: each submitted
item's id occurs in the results as often as it was submitted — exactly
once when the submitted ids are distinct — so nothing is dropped and
nothing is duplicated.  With a raising callback the item is still
appended and `processed_items` still reaches `K`, but `failed_items` is
incremented a second time for an already-counted item (see
`batch_counts_cx`).  `processedOrder` is the completion order of the
worker pool, an arbitrary permutation of the submitted batch. -/
theorem batch_report_complete (collab : Collaborators) (pickleSize : PyDict → Nat)
    (s0 : CacheState) (now elapsed : Nat) (batchId : String) (ea ec : Bool)
    (pc : ProgressCallback) (submitted processedOrder : List BatchItem)
    (hperm : processedOrder.Perm submitted)
    (hcb : ∀ n, cbRun pc n = Except.ok ()) :
    (processBatch collab pickleSize s0 now elapsed batchId pc processedOrder ea
        ec).1.processed_items = submitted.length ∧
      (processBatch collab pickleSize s0 now elapsed batchId pc processedOrder ea
            ec).1.successful_items
          + (processBatch collab pickleSize s0 now elapsed batchId pc processedOrder ea
            ec).1.failed_items
        = submitted.length ∧
      (processBatch collab pickleSize s0 now elapsed batchId pc processedOrder ea
          ec).1.results.map (fun r => r.item_id) = processedOrder.map (fun i => i.id) ∧
      (∀ it ∈ submitted,
        ((processBatch collab pickleSize s0 now elapsed batchId pc processedOrder ea
            ec).1.results.map (fun r => r.item_id)).count it.id
          = (submitted.map (fun i => i.id)).count it.id) ∧
      ((submitted.map (fun i => i.id)).Nodup →
        ∀ it ∈ submitted,
          ((processBatch collab pickleSize s0 now elapsed batchId pc processedOrder ea
            ec).1.results.map (fun r => r.item_id)).count it.id = 1) := by
  obtain ⟨h1, h2, h3⟩ := processBatchAux_spec collab pickleSize now elapsed ea ec pc
    processedOrder (initReport batchId processedOrder.length) s0 0
  have hids : (processBatch collab pickleSize s0 now elapsed batchId pc processedOrder ea
      ec).1.results.map (fun r => r.item_id) = processedOrder.map (fun i => i.id) := by
    simpa [initReport, processBatch] using h3
  have hpermIds : (processedOrder.map (fun i => i.id)).Perm
      (submitted.map (fun i => i.id)) := hperm.map _
  refine ⟨?_, ?_, hids, ?_, ?_⟩
  · simpa [initReport, processBatch, hperm.length_eq] using h1
  · simpa [initReport, processBatch, hperm.length_eq] using h2 hcb
  · intro it _
    rw [hids]
    exact hpermIds.count_eq it.id
  · intro hnd it hit
    rw [hids]
    rw [hpermIds.count_eq it.id]
    exact List.count_eq_one_of_mem hnd (List.mem_map.mpr ⟨it, hit, rfl⟩)

/-- Witness for `batch_report_complete`: two items completed in reverse
submission order, with no progress callback supplied, give
`processed = 2`, `successful + failed = 2`, and each id counted once. -/
theorem batch_report_complete_witness :
    ([itemB, itemA].Perm [itemA, itemB]) ∧
      (cbRun none 1 = Except.ok ()) ∧
      (processBatch okCollab (constSize 10) emptyCache 0 1 "batch" none [itemB, itemA]
        true false).1.processed_items = 2 ∧
      (processBatch okCollab (constSize 10) emptyCache 0 1 "batch" none [itemB, itemA]
            true false).1.successful_items
          + (processBatch okCollab (constSize 10) emptyCache 0 1 "batch" none
            [itemB, itemA] true false).1.failed_items = 2 ∧
      ((processBatch okCollab (constSize 10) emptyCache 0 1 "batch" none [itemB, itemA]
          true false).1.results.map (fun r => r.item_id)).count "a" = 1 :=
  ⟨by decide, rfl,
    (batch_report_complete okCollab (constSize 10) emptyCache 0 1 "batch" true false
      none [itemA, itemB] [itemB, itemA] (by decide) (fun _ => rfl)).1,
    (batch_report_complete okCollab (constSize 10) emptyCache 0 1 "batch" true false
      none [itemA, itemB] [itemB, itemA] (by decide) (fun _ => rfl)).2.1,
    (batch_report_complete okCollab (constSize 10) emptyCache 0 1 "batch" true false
      none [itemA, itemB] [itemB, itemA] (by decide) (fun _ => rfl)).2.2.2.2 (by decide)
      itemA (by decide)⟩


/-!
## Claim C2: set-then-get round trip
-/

/-- C2 counterexample: a *replacing* `set` whose size check triggers the
eviction pass can select the key's own previous row as victim;
`_remove_entry` then unlinks the just-written blob file, so `set` returns
`True`, the fresh metadata row is live (expires at 86400), yet a `get` at
time 1 — well within the TTL, with no intervening mutation — returns a
miss instead of the stored payload. -/
theorem set_get_roundtrip_cx :
    (cacheSet (constSize 200) tightBudgetPre 0 "p" "t" newPayload "o" none [] none).1
        = true ∧
      (cacheSet (constSize 200) tightBudgetPre 0 "p" "t" newPayload "o" none []
          none).2.rows.lookup demoKey = some ⟨0, some 86400, 0, none, 200, []⟩ ∧
      ((1 : Nat) ≤ 86400) ∧
      (cacheGet (cacheSet (constSize 200) tightBudgetPre 0 "p" "t" newPayload "o" none []
          none).2 1 "p" "t" "o").1 = none :=
  ⟨rfl, rfl, by norm_num, rfl⟩

theorem afterEviction_fresh (pickleSize : PyDict → Nat) (s : CacheState)
    (p t o : String) (data : PyDict)
    (hfresh : s.rows.lookup (generateKey p t o) = none) :
    (afterEviction pickleSize s (generateKey p t o) data).blobs.lookup (generateKey p t o)
        = some data ∧
      (afterEviction pickleSize s (generateKey p t o) data).rows.lookup (generateKey p t o)
        = none := by
  have hkeys : ∀ v ∈ cleanupVictims
      (lruSort (afterBlobWrite s (generateKey p t o) data).rows) (pickleSize data) 0,
      v.1 ≠ generateKey p t o := by
    intro v hv
    have hv1 : v ∈ lruSort (afterBlobWrite s (generateKey p t o) data).rows :=
      mem_cleanupVictims _ _ _ v hv
    have hv2 : v ∈ s.rows :=
      (List.perm_insertionSort lruRel _).mem_iff.mp hv1
    exact lookup_eq_none_keys s.rows (generateKey p t o) hfresh v hv2
  unfold afterEviction
  dsimp only
  split
  · unfold cleanupBySize
    have h := removeEntry_foldl_lookup _ (afterBlobWrite s (generateKey p t o) data)
      (generateKey p t o) hkeys
    rw [h.1, h.2]
    exact ⟨lookup_insertKey_self _ _ _, hfresh⟩
  · exact ⟨lookup_insertKey_self _ _ _, hfresh⟩

/-- C2 (amended): the set-then-get round trip holds for every key that is
not already present in the store (and for any replacing set whose
eviction pass does not select the key's own previous row): after a
successful `set`, a `get` with the same triple at any time up to the
expiry returns exactly the stored payload.  For a *replacing* set under
budget pressure the round trip can fail (see `set_get_roundtrip_cx`),
because the eviction pass may delete the key's own freshly written
blob. -/
theorem set_get_roundtrip_fresh (pickleSize : PyDict → Nat) (s : CacheState)
    (now : Nat) (p t : String) (data : PyDict) (o : String) (ttlHours : Option Nat)
    (tags : List String) (now' : Nat)
    (hfresh : s.rows.lookup (generateKey p t o) = none)
    (hwithin : now' ≤ setExpiry s now ttlHours) :
    (cacheSet pickleSize s now p t data o ttlHours tags none).1 = true ∧
      (cacheGet (cacheSet pickleSize s now p t data o ttlHours tags none).2 now' p t o).1
        = some data := by
  obtain ⟨hblob, hrowsNone⟩ := afterEviction_fresh pickleSize s p t o data hfresh
  refine ⟨rfl, ?_⟩
  have hrow : (cacheSet pickleSize s now p t data o ttlHours tags
      none).2.rows.lookup (generateKey p t o)
      = some (newRowFor now (setExpiry s now ttlHours) (pickleSize data) tags) :=
    lookup_insertKey_self _ _ _
  have hlive : expiredB (newRowFor now (setExpiry s now ttlHours) (pickleSize data)
      tags).expires_at now' = false := by
    simp only [newRowFor, expiredB]
    exact decide_eq_false (Nat.not_lt.mpr hwithin)
  have hblob2 : (cacheSet pickleSize s now p t data o ttlHours tags
      none).2.blobs.lookup (generateKey p t o) = some data := hblob
  rw [cacheGet_live _ now' p t o _ data hrow hlive hblob2]

/-- Witness for `set_get_roundtrip_fresh`: storing into an empty cache
with a one-hour TTL and reading back exactly at the expiry instant
returns the stored payload. -/
theorem set_get_roundtrip_fresh_witness :
    (emptyCache.rows.lookup (generateKey "p" "t" "o") = none) ∧
      ((3600 : Nat) ≤ setExpiry emptyCache 0 (some 1)) ∧
      ((cacheSet (constSize 10) emptyCache 0 "p" "t" newPayload "o" (some 1) [] none).1
          = true ∧
        (cacheGet (cacheSet (constSize 10) emptyCache 0 "p" "t" newPayload "o" (some 1) []
            none).2 3600 "p" "t" "o").1 = some newPayload) :=
  ⟨rfl, by decide,
    set_get_roundtrip_fresh (constSize 10) emptyCache 0 "p" "t" newPayload "o" (some 1)
      [] 3600 rfl (by decide)⟩

/-!
## Claim C4: size-budget eviction policy
-/

/-- The sum of `size_bytes` over a list of metadata rows. -/
def sumRowSizes (l : List (String × CacheRow)) : Nat :=
  (l.map (fun e => e.2.size_bytes)).sum

instance : IsTotal (String × CacheRow) lruRel := by
  constructor
  intro a b
  unfold lruRel
  rcases Nat.lt_trichotomy a.2.access_count b.2.access_count with h | h | h
  · exact Or.inl (Or.inl h)
  · rcases ha : a.2.last_accessed with _ | x <;> rcases hb : b.2.last_accessed with _ | y
    · exact Or.inl (Or.inr ⟨h, trivial⟩)
    · exact Or.inl (Or.inr ⟨h, trivial⟩)
    · exact Or.inr (Or.inr ⟨h.symm, trivial⟩)
    · rcases Nat.le_total x y with hxy | hyx
      · exact Or.inl (Or.inr ⟨h, hxy⟩)
      · exact Or.inr (Or.inr ⟨h.symm, hyx⟩)
  · exact Or.inr (Or.inl h)

instance : IsTrans (String × CacheRow) lruRel := by
  constructor
  intro a b c hab hbc
  unfold lruRel at *
  rcases hab with h1 | ⟨h1, h1'⟩
  · rcases hbc with h2 | ⟨h2, h2'⟩
    · exact Or.inl (h1.trans h2)
    · exact Or.inl (h2 ▸ h1)
  · rcases hbc with h2 | ⟨h2, h2'⟩
    · exact Or.inl (h1 ▸ h2)
    · refine Or.inr ⟨h1.trans h2, ?_⟩
      revert h1' h2'
      rcases a.2.last_accessed with _ | x
      · intro _ _; trivial
      · rcases b.2.last_accessed with _ | y
        · intro h1' _; exact h1'.elim
        · rcases c.2.last_accessed with _ | z
          · intro _ h2'; exact h2'.elim
          · intro h1' h2'; exact Nat.le_trans h1' h2'

theorem cleanupVictims_take_form (l : List (String × CacheRow)) (needed freed : Nat) :
    ∃ n, cleanupVictims l needed freed = l.take n := by
  induction l generalizing freed with
  | nil => exact ⟨0, rfl⟩
  | cons hd tl ih =>
    by_cases h : freed ≥ needed
    · exact ⟨0, by rw [cleanupVictims, if_pos h]; rfl⟩
    · obtain ⟨n, hn⟩ := ih (freed + hd.2.size_bytes)
      exact ⟨n + 1, by rw [cleanupVictims, if_neg h, hn]; rfl⟩

theorem cleanupVictims_greedy (l : List (String × CacheRow)) (needed freed : Nat) :
    (freed + sumRowSizes (cleanupVictims l needed freed) ≥ needed
        ∨ cleanupVictims l needed freed = l) ∧
      (∀ j < (cleanupVictims l needed freed).length,
        freed + sumRowSizes ((cleanupVictims l needed freed).take j) < needed) := by
  induction l generalizing freed with
  | nil =>
    refine ⟨Or.inr rfl, ?_⟩
    intro j hj
    simp [cleanupVictims] at hj
  | cons hd tl ih =>
    by_cases h : freed ≥ needed
    · rw [cleanupVictims, if_pos h]
      refine ⟨Or.inl ?_, ?_⟩
      · simpa [sumRowSizes] using h
      · intro j hj
        simp at hj
    · rw [cleanupVictims, if_neg h]
      obtain ⟨ih1, ih2⟩ := ih (freed + hd.2.size_bytes)
      constructor
      · rcases ih1 with hge | heq
        · left
          simp only [sumRowSizes, List.map_cons, List.sum_cons] at *
          omega
        · right
          rw [heq]
      · intro j hj
        cases j with
        | zero =>
          simp only [List.take_zero, sumRowSizes, List.map_nil, List.sum_nil]
          omega
        | succ j' =>
          have hj' : j' < (cleanupVictims tl needed (freed + hd.2.size_bytes)).length := by
            simpa using hj
          have := ih2 j' hj'
          simp only [List.take_succ_cons, sumRowSizes, List.map_cons, List.sum_cons] at *
          omega

theorem not_mem_keys_of_lookup_none {β : Type} (l : List (String × β)) (k : String)
    (h : l.lookup k = none) : k ∉ l.map Prod.fst := by
  intro hk
  obtain ⟨p, hp, hpk⟩ := List.mem_map.mp hk
  exact lookup_eq_none_keys l k h p hp hpk

theorem eraseKey_eq_self {β : Type} (l : List (String × β)) (k : String)
    (h : k ∉ l.map Prod.fst) : eraseKey l k = l := by
  apply List.filter_eq_self.mpr
  intro a ha
  simp only [bne_iff_ne, ne_eq, decide_eq_true_eq]
  intro hak
  exact h (List.mem_map.mpr ⟨a, ha, hak⟩)

theorem erase_sum_le (l : List (String × CacheRow)) (k : String) (r : CacheRow)
    (hnd : (l.map Prod.fst).Nodup) (hmem : (k, r) ∈ l) :
    sumRowSizes (eraseKey l k) + r.size_bytes ≤ sumRowSizes l := by
  induction l with
  | nil => cases hmem
  | cons hd tl ih =>
    rw [List.map_cons] at hnd
    obtain ⟨hhd, htl⟩ := List.nodup_cons.mp hnd
    rcases List.mem_cons.mp hmem with heq | hmem'
    · have hk : hd.1 = k := by rw [← heq]
      have hnotin : k ∉ tl.map Prod.fst := hk ▸ hhd
      have hdrop : ((hd.1 != k) : Bool) = false := by simpa using hk
      rw [eraseKey, List.filter_cons, hdrop, if_neg (by simp)]
      have : List.filter (fun e => e.1 != k) tl = tl :=
        List.filter_eq_self.mpr (by
          intro a ha
          simp only [bne_iff_ne, ne_eq, decide_eq_true_eq]
          intro hak
          exact hnotin (List.mem_map.mpr ⟨a, ha, hak⟩))
      rw [this]
      have hsize : r.size_bytes = hd.2.size_bytes := by rw [← heq]
      simp only [sumRowSizes, List.map_cons, List.sum_cons, hsize]
      omega
    · have hne : hd.1 ≠ k := by
        intro he
        exact hhd (he ▸ List.mem_map.mpr ⟨(k, r), hmem', rfl⟩)
      have hkeep : ((hd.1 != k) : Bool) = true := by simpa using hne
      rw [eraseKey, List.filter_cons, hkeep, if_pos rfl]
      have := ih htl hmem'
      simp only [eraseKey, sumRowSizes, List.map_cons, List.sum_cons] at *
      omega

theorem removal_sum (victims : List (String × CacheRow)) (st : CacheState)
    (hnd : (st.rows.map Prod.fst).Nodup)
    (hv : ∀ v ∈ victims, v ∈ st.rows)
    (hvnd : (victims.map Prod.fst).Nodup) :
    totalSize (victims.foldl (fun acc v => removeEntry acc v.1) st) + sumRowSizes victims
      ≤ totalSize st := by
  induction victims generalizing st with
  | nil => simp [sumRowSizes]
  | cons v vs ih =>
    rw [List.map_cons] at hvnd
    obtain ⟨hvhd, hvtl⟩ := List.nodup_cons.mp hvnd
    have hvin : v ∈ st.rows := hv v (List.mem_cons_self _ _)
    have h1 : totalSize (removeEntry st v.1) + v.2.size_bytes ≤ totalSize st := by
      have : (v.1, v.2) ∈ st.rows := by rw [Prod.mk.eta]; exact hvin
      exact erase_sum_le st.rows v.1 v.2 hnd this
    have hnd' : ((removeEntry st v.1).rows.map Prod.fst).Nodup :=
      List.Nodup.sublist (List.Sublist.map _ (List.filter_sublist _)) hnd
    have hv' : ∀ w ∈ vs, w ∈ (removeEntry st v.1).rows := by
      intro w hw
      have hwin : w ∈ st.rows := hv w (List.mem_cons_of_mem _ hw)
      have hwne : w.1 ≠ v.1 := by
        intro he
        exact hvhd (he ▸ List.mem_map.mpr ⟨w, hw, rfl⟩)
      exact List.mem_filter.mpr ⟨hwin, by simpa using hwne⟩
    have h2 := ih (removeEntry st v.1) hnd' hv' hvtl
    simp only [List.foldl_cons, sumRowSizes, List.map_cons, List.sum_cons] at *
    omega

theorem afterBlobWrite_rows (s : CacheState) (k : String) (d : PyDict) :
    (afterBlobWrite s k d).rows = s.rows := rfl

theorem afterBlobWrite_maxSize (s : CacheState) (k : String) (d : PyDict) :
    (afterBlobWrite s k d).maxSize = s.maxSize := rfl

theorem totalSize_afterBlobWrite (s : CacheState) (k : String) (d : PyDict) :
    totalSize (afterBlobWrite s k d) = totalSize s := rfl

theorem totalSize_eq_sum (s : CacheState) : totalSize s = sumRowSizes s.rows := rfl

theorem set_stays_within_budget (pickleSize : PyDict → Nat) (s : CacheState) (now : Nat)
    (p t : String) (data : PyDict) (o : String) (ttlHours : Option Nat)
    (tags : List String)
    (hnd : (s.rows.map Prod.fst).Nodup)
    (hfresh : s.rows.lookup (generateKey p t o) = none)
    (hbudget : totalSize s ≤ s.maxSize)
    (henough : sumRowSizes (cleanupVictims (lruSort s.rows) (pickleSize data) 0)
      ≥ pickleSize data) :
    totalSize (cacheSet pickleSize s now p t data o ttlHours tags none).2 ≤ s.maxSize := by
  have hkey := afterEviction_fresh pickleSize s p t o data hfresh
  have hnotmem : (generateKey p t o)
      ∉ (afterEviction pickleSize s (generateKey p t o) data).rows.map Prod.fst :=
    not_mem_keys_of_lookup_none _ _ hkey.2
  have herase : eraseKey (afterEviction pickleSize s (generateKey p t o) data).rows
        (generateKey p t o)
      = (afterEviction pickleSize s (generateKey p t o) data).rows :=
    eraseKey_eq_self _ _ hnotmem
  have htot : totalSize (cacheSet pickleSize s now p t data o ttlHours tags none).2
      = pickleSize data
        + sumRowSizes (afterEviction pickleSize s (generateKey p t o) data).rows := by
    show sumRowSizes ((generateKey p t o,
        newRowFor now (setExpiry s now ttlHours) (pickleSize data) tags)
      :: eraseKey (afterEviction pickleSize s (generateKey p t o) data).rows
        (generateKey p t o)) = _
    rw [herase]
    simp [sumRowSizes, newRowFor]
  rw [htot]
  by_cases hc : totalSize (afterBlobWrite s (generateKey p t o) data) + pickleSize data
      > (afterBlobWrite s (generateKey p t o) data).maxSize
  · have hAE : afterEviction pickleSize s (generateKey p t o) data
        = cleanupBySize (afterBlobWrite s (generateKey p t o) data) (pickleSize data) := by
      unfold afterEviction
      dsimp only
      rw [if_pos hc]
    rw [hAE]
    unfold cleanupBySize
    rw [afterBlobWrite_rows]
    have hperm := List.perm_insertionSort lruRel s.rows
    have hndSorted : ((lruSort s.rows).map Prod.fst).Nodup :=
      ((hperm.map Prod.fst).nodup_iff).mpr hnd
    obtain ⟨n, hn⟩ := cleanupVictims_take_form (lruSort s.rows) (pickleSize data) 0
    have hvnd : ((cleanupVictims (lruSort s.rows) (pickleSize data) 0).map
        Prod.fst).Nodup := by
      rw [hn]
      exact List.Nodup.sublist (List.Sublist.map _ (List.take_sublist _ _)) hndSorted
    have hv : ∀ v ∈ cleanupVictims (lruSort s.rows) (pickleSize data) 0,
        v ∈ (afterBlobWrite s (generateKey p t o) data).rows := by
      intro v hvmem
      rw [afterBlobWrite_rows]
      exact hperm.mem_iff.mp (mem_cleanupVictims _ _ _ v hvmem)
    have hrem := removal_sum (cleanupVictims (lruSort s.rows) (pickleSize data) 0)
      (afterBlobWrite s (generateKey p t o) data)
      (by rw [afterBlobWrite_rows]; exact hnd) hv hvnd
    rw [totalSize_afterBlobWrite] at hrem
    rw [← totalSize_eq_sum]
    omega
  · have hAE : afterEviction pickleSize s (generateKey p t o) data
        = afterBlobWrite s (generateKey p t o) data := by
      unfold afterEviction
      dsimp only
      rw [if_neg hc]
    rw [hAE, afterBlobWrite_rows, ← totalSize_eq_sum]
    rw [totalSize_afterBlobWrite, afterBlobWrite_maxSize] at hc
    omega

/-- The cache key of the first 400-byte scenario entry (least used). -/
def keyA : String := generateKey "pa" "t" "o"

/-- The cache key of the second 400-byte scenario entry. -/
def keyB : String := generateKey "pb" "t" "o"

/-- The cache key of the third 400-byte scenario entry. -/
def keyC : String := generateKey "pc" "t" "o"

/-- The least-used scenario row: never accessed. -/
def rowA : CacheRow := ⟨0, some 999999, 0, none, 400, []⟩

/-- A scenario row accessed once. -/
def rowB : CacheRow := ⟨0, some 999999, 1, some 10, 400, []⟩

/-- A scenario row accessed twice. -/
def rowC : CacheRow := ⟨0, some 999999, 2, some 20, 400, []⟩

/-- The C4 scenario cache: budget 1200 bytes, three live 400-byte
entries with distinct access counts. -/
def c4Pre : CacheState :=
  { rows := [(keyA, rowA), (keyB, rowB), (keyC, rowC)],
    blobs := [(keyA, oldPayload), (keyB, oldPayload), (keyC, oldPayload)],
    maxSize := 1200, defaultTtl := 86400 }

set_option maxRecDepth 10000 in
/-- C4: the eviction pass selects victims in ascending `access_count`
order with ties broken by ascending `last_accessed` (the candidate list is
sorted by `lruRel` and the victims are a prefix of it), deletes them one
at a time exactly until the freed bytes cover the incoming size — every
proper prefix of the victims frees strictly less than needed — or the
candidates are exhausted; under these rules a fresh-key `put` into a
store within budget leaves `totalSize ≤ budget` whenever the victim pass
can free the incoming size.  The final conjunct is the spec scenario:
budget 1200, three live 400-byte entries, putting a fourth 400-byte entry
evicts exactly one — the least-used (`keyA`) — leaving 3 entries and
`totalSize = 1200 ≤ 1200`. -/
theorem eviction_policy (s : CacheState) (needed : Nat) (pickleSize : PyDict → Nat)
    (now : Nat) (p t : String) (data : PyDict) (o : String) (ttlHours : Option Nat)
    (tags : List String)
    (hnd : (s.rows.map Prod.fst).Nodup)
    (hfresh : s.rows.lookup (generateKey p t o) = none)
    (hbudget : totalSize s ≤ s.maxSize)
    (henough : sumRowSizes (cleanupVictims (lruSort s.rows) (pickleSize data) 0)
      ≥ pickleSize data) :
    List.Sorted lruRel (lruSort s.rows) ∧
      (∃ n, cleanupVictims (lruSort s.rows) needed 0 = (lruSort s.rows).take n) ∧
      (sumRowSizes (cleanupVictims (lruSort s.rows) needed 0) ≥ needed
        ∨ cleanupVictims (lruSort s.rows) needed 0 = lruSort s.rows) ∧
      (∀ j < (cleanupVictims (lruSort s.rows) needed 0).length,
        sumRowSizes ((cleanupVictims (lruSort s.rows) needed 0).take j) < needed) ∧
      totalSize (cacheSet pickleSize s now p t data o ttlHours tags none).2 ≤ s.maxSize ∧
      ((cacheSet (constSize 400) c4Pre 100 "pd" "t" newPayload "o" none []
          none).2.rows.length = 3 ∧
        totalSize (cacheSet (constSize 400) c4Pre 100 "pd" "t" newPayload "o" none []
          none).2 = 1200 ∧
        (cacheSet (constSize 400) c4Pre 100 "pd" "t" newPayload "o" none []
          none).2.rows.lookup keyA = none ∧
        ((cacheSet (constSize 400) c4Pre 100 "pd" "t" newPayload "o" none []
          none).2.rows.lookup keyB).isSome = true ∧
        ((cacheSet (constSize 400) c4Pre 100 "pd" "t" newPayload "o" none []
          none).2.rows.lookup keyC).isSome = true ∧
        (cleanupVictims (lruSort c4Pre.rows) 400 0).map Prod.fst = [keyA]) := by
  obtain ⟨hg1, hg2⟩ := cleanupVictims_greedy (lruSort s.rows) needed 0
  refine ⟨List.sorted_insertionSort lruRel s.rows,
    cleanupVictims_take_form _ _ _, ?_, ?_,
    set_stays_within_budget pickleSize s now p t data o ttlHours tags hnd hfresh
      hbudget henough, rfl, rfl, rfl, rfl, rfl, rfl⟩
  · simpa using hg1
  · intro j hj
    simpa using hg2 j hj

set_option maxRecDepth 10000 in
/-- Witness for `eviction_policy` at the concrete scenario store. -/
theorem eviction_policy_witness :
    ((c4Pre.rows.map Prod.fst).Nodup) ∧
      (c4Pre.rows.lookup (generateKey "pd" "t" "o") = none) ∧
      (totalSize c4Pre ≤ c4Pre.maxSize) ∧
      (sumRowSizes (cleanupVictims (lruSort c4Pre.rows) (constSize 400 newPayload) 0)
        ≥ constSize 400 newPayload) ∧
      totalSize (cacheSet (constSize 400) c4Pre 100 "pd" "t" newPayload "o" none []
        none).2 ≤ c4Pre.maxSize :=
  ⟨by decide, rfl, by decide, by decide,
    (eviction_policy c4Pre 400 (constSize 400) 100 "pd" "t" newPayload "o" none []
      (by decide) rfl (by decide) (by decide)).2.2.2.2.1⟩
